import Mathlib

/-!
# Sathi chat service: FAQ matcher and response arbiter

A shallow embedding of `src/backend/services/chatService.js`.

Modelling conventions.

* A JavaScript string is a `List Char`.  `toLowerCase` maps the ASCII letters
  `A`–`Z` to `a`–`z` and leaves every other character alone (every string
  literal of the service is ASCII).
* A JavaScript number is a rational: all sums and comparisons are exact. The
  source adds and subtracts doubles, so a value of the source can differ from
  the exact one by a rounding step (0.2 + 0.2 + 6 * 0.1 is 0.9999999999999999
  there, and 0.8 - 0.2 is 0.6000000000000001).
* `null` / a missing object is `none`.
* A `for (... of ...)` loop is a left fold over the list it runs through.
* `processMessage` takes what the awaited backend call produced, a response or
  a thrown error; `ChatService.processMessage` is the whole method, with
  `fetch` a function from the request to what the awaited call produced, and
  `callGeminiAPI` records the requests it hands to `fetch`.
* `s.length` counts UTF-16 code units.
* `calculateConfidenceDouble` is the confidence heuristic in the double
  arithmetic of the source: every literal and every subtraction is rounded to
  the nearest IEEE 754 binary64 value (`roundDouble`), where
  `calculateConfidence` computes with exact rationals.
-/

namespace Sathi

/-! ## JavaScript string primitives used by the service -/

/-- A JavaScript string. -/
abbrev JSString := List Char

/-- The characters matched by the regular expression class `\s`, which are
also the characters removed by `String.prototype.trim`. -/
@[irreducible]
def isWhiteSpace (c : Char) : Bool :=
  let n := c.toNat
  n == 9 || n == 10 || n == 11 || n == 12 || n == 13 || n == 32 || n == 160 ||
  n == 5760 || (8192 ≤ n && n ≤ 8202) || n == 8232 || n == 8233 || n == 8239 ||
  n == 8287 || n == 12288 || n == 65279

/-- `s.toLowerCase()`. -/
def toLowerCase (s : JSString) : JSString :=
  s.map Char.toLower

/-- `s.trim()`. -/
def trim (s : JSString) : JSString :=
  ((s.dropWhile isWhiteSpace).reverse.dropWhile isWhiteSpace).reverse

/-- `s.includes(sub)`: `sub` occurs in `s` as a contiguous run. -/
def includes : JSString → JSString → Bool
  | [], sub => sub.isEmpty
  | c :: cs, sub => sub.isPrefixOf (c :: cs) || includes cs sub

/-- `s.split(/\s+/)`: the pieces of `s` between maximal runs of white space.
A leading or trailing run leaves an empty piece at that end, and the empty
string splits into one empty piece. -/
def splitWhiteSpace : JSString → List JSString
  | [] => [[]]
  | c :: cs =>
    if isWhiteSpace c then
      match cs with
      | [] => [[], []]
      | d :: _ => if isWhiteSpace d then splitWhiteSpace cs else [] :: splitWhiteSpace cs
    else
      match splitWhiteSpace cs with
      | [] => [[c]]
      | t :: ts => (c :: t) :: ts

/-- A string literal of the source, as a JavaScript string. -/
def str (s : String) : JSString :=
  s.toList

/-! ## Data model -/

/-- An entry of the FAQ table; a match returned by `checkFAQ` has the same
fields, with `confidence` overwritten by the computed score. -/
structure FAQEntry where
  question : JSString
  answer : JSString
  keywords : List JSString
  confidence : ℚ
  deriving DecidableEq

/-- The value returned by `callGeminiAPI`. -/
structure AIResponse where
  reply : JSString
  confidence : ℚ
  deriving DecidableEq

/-- The `source` field of an outcome. -/
inductive Source where
  | faq
  | ai
  | ai_with_escalation
  | error
  deriving DecidableEq, Repr

/-- The object returned by `processMessage`. -/
structure Outcome where
  reply : JSString
  confidence : ℚ
  source : Source
  escalationOffered : Bool
  deriving DecidableEq

/-! ## The FAQ matcher -/

/-- The value of the local variable `score` of `calculateMatchScore` when the
`return` statement is reached, before it is clamped. -/
def calculateMatchScore.accumulated (userMessage : JSString) (faq : FAQEntry) : ℚ :=
  let score : ℚ := 0
  let messageWords := splitWhiteSpace userMessage
  -- Check exact question match
  let score := if includes userMessage (toLowerCase faq.question) then score + 1.0 else score
  -- Check keyword matches
  let score := faq.keywords.foldl
    (fun score keyword =>
      if includes userMessage (toLowerCase keyword) then score + 0.2 else score) score
  -- Check for partial word matches
  let score := messageWords.foldl
    (fun score word => faq.keywords.foldl
      (fun score keyword =>
        if includes (toLowerCase keyword) word || includes word (toLowerCase keyword)
        then score + 0.1 else score) score) score
  score

/-- `calculateMatchScore(userMessage, faq)`. -/
def calculateMatchScore (userMessage : JSString) (faq : FAQEntry) : ℚ :=
  min 1.0 (calculateMatchScore.accumulated userMessage faq)

/-- The table `faqData` declared inside `checkFAQ`. -/
def faqData : List FAQEntry := [
  { question := str "How do I create an account?",
    answer := str "To create an account, click the 'Sign Up' button on our homepage. You'll need to provide your email address and create a secure password. We'll send you a verification email to confirm your account.",
    keywords := [str "account", str "create", str "signup", str "register", str "sign up"],
    confidence := 0.9 },
  { question := str "How do I find a consultant?",
    answer := str "You can find consultants by going to the 'Consultants' page. Use the search and filter options to find someone who specializes in your area of need. You can filter by specialty, availability, and other preferences.",
    keywords := [str "consultant", str "find", str "search", str "therapist", str "counselor"],
    confidence := 0.9 },
  { question := str "Is my data secure and private?",
    answer := str "Yes, absolutely. We take your privacy and data security very seriously. All conversations are encrypted and stored securely. We never share your personal information without your explicit consent.",
    keywords := [str "privacy", str "security", str "data", str "secure", str "private", str "confidential"],
    confidence := 0.9 },
  { question := str "How do I reset my password?",
    answer := str "To reset your password, go to the login page and click 'Forgot Password'. Enter your email address, and we'll send you a secure link to reset your password.",
    keywords := [str "password", str "reset", str "forgot", str "login", str "access"],
    confidence := 0.9 },
  { question := str "What if I'm in crisis?",
    answer := str "If you're experiencing a mental health crisis, please contact emergency services immediately (911) or a crisis hotline. Our platform is for general support and guidance, not emergency situations.",
    keywords := [str "crisis", str "emergency", str "urgent", str "help", str "suicide", str "self-harm"],
    confidence := 0.95 },
  { question := str "How much does it cost?",
    answer := str "Our basic platform features are free to use. Premium features and direct consultant sessions may have associated costs. You can view our pricing on the 'Pricing' page or contact support for specific details.",
    keywords := [str "cost", str "price", str "pricing", str "free", str "payment", str "billing"],
    confidence := 0.8 },
  { question := str "I'm having technical problems with the website",
    answer := str "I'm sorry you're experiencing technical issues! Here are some common solutions: 1) Try refreshing the page (Ctrl+F5), 2) Clear your browser cache, 3) Check your internet connection, 4) Try a different browser, 5) Disable browser extensions temporarily. If the problem persists, please describe the specific error message you're seeing.",
    keywords := [str "technical", str "problem", str "issue", str "website", str "loading", str "error", str "not working", str "broken", str "bug"],
    confidence := 0.9 },
  { question := str "The website is not loading properly",
    answer := str "If the website isn't loading properly, try these steps: 1) Check your internet connection, 2) Refresh the page (Ctrl+F5), 3) Clear your browser cache and cookies, 4) Try incognito/private browsing mode, 5) Disable ad blockers temporarily. If you're still having issues, please let me know what specific error you're seeing.",
    keywords := [str "loading", str "website", str "not working", str "slow", str "error", str "page", str "browser"],
    confidence := 0.9 },
  { question := str "I'm getting error messages",
    answer := str "I'm here to help with those error messages! Please share the specific error message you're seeing, and I'll guide you through troubleshooting. Common errors include: 'Failed to fetch' (connection issues), 'Page not found' (broken links), or 'Server error' (temporary issues). The more details you can provide, the better I can assist you.",
    keywords := [str "error", str "message", str "failed", str "fetch", str "server", str "not found", str "broken"],
    confidence := 0.9 },
  { question := str "How is my data protected and who can see my conversations?",
    answer := str "Your privacy and data security are our top priorities! Here's how we protect you: 1) All conversations are encrypted end-to-end, 2) Only you and our AI can see your chat history, 3) We never share your personal information with third parties, 4) Your data is stored on secure, encrypted servers, 5) You can delete your chat history anytime. We follow strict privacy regulations and never use your conversations for marketing.",
    keywords := [str "privacy", str "data", str "security", str "protected", str "conversations", str "encrypted", str "private", str "confidential", str "who can see"],
    confidence := 0.95 },
  { question := str "Is my information secure on this platform?",
    answer := str "Yes, absolutely! We use industry-standard security measures: 1) End-to-end encryption for all communications, 2) Secure HTTPS connections, 3) Regular security audits, 4) No data sharing with third parties, 5) You control your data - you can delete it anytime. We're committed to keeping your mental health journey private and secure. Your trust is important to us.",
    keywords := [str "secure", str "information", str "security", str "safe", str "encrypted", str "protected", str "data"],
    confidence := 0.95 }
]

/-- The loop state of `checkFAQ`: the variables `bestMatch` and `bestScore`. -/
structure Best where
  bestMatch : Option FAQEntry
  bestScore : ℚ
  deriving DecidableEq

/-- One iteration of the loop `for (const faq of faqData)` in `checkFAQ`. -/
def checkFAQ.step (normalizedMessage : JSString) (b : Best) (faq : FAQEntry) : Best :=
  let score := calculateMatchScore normalizedMessage faq
  if score > b.bestScore then
    { bestScore := score, bestMatch := some { faq with confidence := score } }
  else b

/-- The loop of `checkFAQ` run over a table, from `bestMatch = null` and
`bestScore = 0`. -/
def checkFAQ.loop (normalizedMessage : JSString) (table : List FAQEntry) : Best :=
  table.foldl (checkFAQ.step normalizedMessage) { bestMatch := none, bestScore := 0 }

/-- `checkFAQ(userMessage)`; `none` is the `null` result. -/
def checkFAQ (userMessage : JSString) : Option FAQEntry :=
  let normalizedMessage := trim (toLowerCase userMessage)
  let b := checkFAQ.loop normalizedMessage faqData
  if b.bestScore > 0.8 then b.bestMatch else none

/-! ## The response arbiter -/

/-- The array `uncertaintyPhrases` of `shouldOfferEscalation`. -/
def uncertaintyPhrases : List JSString :=
  [str "i don't know", str "i'm not sure", str "i can't help", str "i'm unable to",
   str "i don't have information", str "i'm not certain"]

/-- `shouldOfferEscalation(aiResponse, faqResult)`. -/
def shouldOfferEscalation (aiResponse : AIResponse) (faqResult : Option FAQEntry) : Bool :=
  if aiResponse.confidence < 0.6 then true
  else if (match faqResult with
      | none => true
      | some f => decide (f.confidence < 0.5)) then true
  else
    uncertaintyPhrases.any (fun phrase => includes (toLowerCase aiResponse.reply) phrase)

/-- The text appended to the AI reply when escalation is offered. -/
def escalationSuffix : JSString :=
  str "\n\nI'm not entirely sure about that. Would you like me to connect you to a human support agent who can help you better?"

/-- The part of `processMessage` that follows the two awaited calls: the
decision taken from the FAQ result and the AI response. -/
def arbitrate (faqResult : Option FAQEntry) (aiResponse : AIResponse) : Outcome :=
  -- Only use FAQ if it has very high confidence (>0.95) and AI confidence is low
  match faqResult.filter
      (fun f => decide (f.confidence > 0.95) && decide (aiResponse.confidence < 0.7)) with
  | some f =>
    { reply := f.answer, confidence := f.confidence, source := Source.faq,
      escalationOffered := false }
  | none =>
    -- Check if escalation should be offered
    let shouldEscalate := shouldOfferEscalation aiResponse faqResult
    if shouldEscalate then
      { reply := aiResponse.reply ++ escalationSuffix, confidence := aiResponse.confidence,
        source := Source.ai_with_escalation, escalationOffered := true }
    else
      { reply := aiResponse.reply, confidence := aiResponse.confidence, source := Source.ai,
        escalationOffered := false }

/-- The outcome returned by the `catch` block of `processMessage`. -/
def errorOutcome : Outcome :=
  { reply := str "I apologize, but I'm experiencing technical difficulties. Please try again in a moment, or contact our support team directly.",
    confidence := 0, source := Source.error, escalationOffered := true }

/-- `processMessage(userMessage, session)`, given what the awaited call
`callGeminiAPI(userMessage, session)` produced: a response, or a thrown
error. -/
def processMessage (backend : Except JSString AIResponse) (userMessage : JSString) : Outcome :=
  let faqResult := checkFAQ userMessage
  match backend with
  | Except.ok aiResponse => arbitrate faqResult aiResponse
  | Except.error _ => errorOutcome

/-! ## The AI call adapter -/

/-- `s.length`: the number of UTF-16 code units of the string. -/
def length (s : JSString) : Nat :=
  (s.map (fun c => if c.toNat < 65536 then 1 else 2)).sum

/-- `x || d` for a string `x` that may be `undefined`: the empty string is
falsy too. -/
def orElse (x : Option JSString) (d : JSString) : JSString :=
  match x with
  | some t => if t.isEmpty then d else t
  | none => d

/-- An element of `candidate.safetyRatings`. -/
structure SafetyRating where
  category : JSString
  probability : JSString
  deriving DecidableEq

/-- An element of `candidate.content.parts`. -/
structure Part where
  text : Option JSString
  deriving DecidableEq

/-- The object `candidate.content`. -/
structure Content where
  parts : Option (List Part)
  deriving DecidableEq

/-- An element of `data.candidates` in the backend's answer. -/
structure Candidate where
  content : Option Content
  safetyRatings : Option (List SafetyRating)
  deriving DecidableEq

/-- The expression `candidate.content?.parts?.[0]?.text`. -/
def Candidate.text (candidate : Candidate) : Option JSString :=
  match candidate.content with
  | none => none
  | some content =>
    match content.parts with
    | none => none
    | some parts =>
      match parts.head? with
      | none => none
      | some part => part.text

/-- The array `uncertaintyWords` of `calculateConfidence`. -/
def uncertaintyWords : List JSString :=
  [str "might", str "maybe", str "possibly", str "not sure", str "unclear", str "uncertain"]

/-- `calculateConfidence(candidate)`. -/
def calculateConfidence (candidate : Candidate) : ℚ :=
  let confidence : ℚ := 0.8
  let confidence :=
    match candidate.safetyRatings with
    | some safetyRatings =>
      let hasBlockedContent := safetyRatings.any
        (fun rating => rating.probability == str "HIGH" || rating.probability == str "MEDIUM")
      if hasBlockedContent then confidence - 0.3 else confidence
    | none => confidence
  let responseText := orElse candidate.text (str "")
  let confidence := if length responseText < 20 then confidence - 0.2 else confidence
  let hasUncertainty := uncertaintyWords.any
    (fun word => includes (toLowerCase responseText) word)
  let confidence := if hasUncertainty then confidence - 0.1 else confidence
  max 0 (min 1 confidence)

/-! ### Double arithmetic -/

/-- The rational `2 ^ e` for an integer exponent. -/
def pow2 (e : ℤ) : ℚ :=
  if 0 ≤ e then ((2 ^ e.toNat : ℕ) : ℚ) else 1 / ((2 ^ (-e).toNat : ℕ) : ℚ)

/-- The integer nearest to a rational; a tie goes to the even integer. -/
def roundHalfEven (x : ℚ) : ℤ :=
  let f := ⌊x⌋
  if x - f < 1 / 2 then f else if 1 / 2 < x - f then f + 1 else if f % 2 = 0 then f else f + 1

/-- Halving `n` until it is below 2, counting the steps; `fuel` bounds the
number of steps. -/
def log2Floor.go : ℕ → ℕ → ℕ
  | 0, _ => 0
  | fuel + 1, n => if n < 2 then 0 else log2Floor.go fuel (n / 2) + 1

/-- The position of the leading bit of a positive natural number. -/
def log2Floor (n : ℕ) : ℕ :=
  log2Floor.go n n

/-- The exponent `e` with `2 ^ e ≤ a < 2 ^ (e + 1)`, for positive `a`. -/
def binaryExponent (a : ℚ) : ℤ :=
  let e0 : ℤ := (log2Floor a.num.natAbs : ℤ) - (log2Floor a.den : ℤ)
  if a < pow2 e0 then e0 - 1 else e0

/-- Rounding of a real number to the nearest IEEE 754 binary64 value, ties to
even: 53 significant bits, exponents from -1022 on (subnormal values below).
Overflow to infinity is not modelled; the service never leaves the interval
from -1 to 2. -/
def roundDouble (q : ℚ) : ℚ :=
  if q = 0 then 0
  else
    let e := max (binaryExponent |q|) (-1022)
    let quantum := pow2 (e - 52)
    (roundHalfEven (q / quantum) : ℚ) * quantum

/-- `calculateConfidence(candidate)` in double arithmetic: the literals 0.8,
0.3, 0.2 and 0.1 are the nearest doubles and every `-=` rounds its result. -/
def calculateConfidenceDouble (candidate : Candidate) : ℚ :=
  let confidence : ℚ := roundDouble 0.8
  let confidence :=
    match candidate.safetyRatings with
    | some safetyRatings =>
      let hasBlockedContent := safetyRatings.any
        (fun rating => rating.probability == str "HIGH" || rating.probability == str "MEDIUM")
      if hasBlockedContent then roundDouble (confidence - roundDouble 0.3) else confidence
    | none => confidence
  let responseText := orElse candidate.text (str "")
  let confidence :=
    if length responseText < 20 then roundDouble (confidence - roundDouble 0.2) else confidence
  let hasUncertainty := uncertaintyWords.any
    (fun word => includes (toLowerCase responseText) word)
  let confidence := if hasUncertainty then roundDouble (confidence - roundDouble 0.1) else confidence
  max 0 (min 1 confidence)

/-- The fields of a `ChatService` object. -/
structure ChatService where
  geminiApiKey : JSString
  geminiApiUrl : JSString
  deriving DecidableEq

/-- The key literal the constructor falls back to. The source has a
39-character literal here; it is shortened to its first four characters, and
only that it is non-empty and differs from the placeholder
`your_gemini_api_key_here` is ever used. -/
def fallbackApiKey : JSString :=
  str "AIza"

/-- The constructor, given the environment variables `GEMINI_API_KEY` and
`GEMINI_API_URL` (`none` when absent). -/
def ChatService.new (envApiKey envApiUrl : Option JSString) : ChatService :=
  { geminiApiKey := orElse envApiKey fallbackApiKey,
    geminiApiUrl := orElse envApiUrl
      (str "https://generativelanguage.googleapis.com/v1beta/models/gemini-2.5-pro:generateContent") }

/-- An element of `session.messages`. -/
structure Message where
  role : JSString
  content : JSString
  deriving DecidableEq

/-- A JavaScript value, as far as the request handler tells values apart;
`object` stands for every object and array, `nan` for the number `NaN`. -/
inductive JSValue where
  | undefined
  | null
  | boolean (b : Bool)
  | number (n : ℚ)
  | nan
  | string (s : JSString)
  | object
  deriving DecidableEq

/-- The `session` argument of `processMessage` and `callGeminiAPI`. -/
structure Session where
  conversationId : JSValue
  messages : Option (List Message)
  deriving DecidableEq

/-- The constant `systemPrompt` of `callGeminiAPI`. -/
def systemPrompt : JSString :=
  str "You are Sathi's customer support AI assistant. Sathi is a mental health support platform that provides:\n\n1. AI-powered chat support for mental wellness\n2. Access to trusted mental health consultants  \n3. Resources and tools for stress management\n4. A safe, private space for users to seek help\n\nKey information about Sathi:\n- We prioritize user privacy and data security\n- Our platform offers gentle, supportive AI guidance\n- Users can connect with professional consultants\n- We provide 24/7 support through this chat\n- Our approach is calm, empathetic, and non-judgmental\n\nGuidelines for responses:\n- Be warm, empathetic, and supportive\n- Keep responses concise but helpful (under 150 words)\n- If users need professional help, guide them to our consultants\n- For technical issues, provide clear troubleshooting steps\n- Always maintain a calm, reassuring tone\n- If you can't help with something, offer to connect them with human support\n- Remember this is a mental health platform, so be extra sensitive\n- Use simple, accessible language\n- Avoid medical advice - refer to professionals when needed\n\nIMPORTANT: Provide SPECIFIC and DIFFERENT responses based on the user's query type. NEVER give the same response twice - always vary your approach:\n\nFor TECHNICAL ISSUES:\n- Ask specific questions about what's happening\n- Provide different troubleshooting approaches each time\n- Focus on the user's specific situation\n- Offer personalized solutions based on their description\n- Vary your response style and approach\n\nFor PRIVACY QUESTIONS:\n- Explain data encryption and security measures\n- Clarify who can see their information\n- Mention data control options\n- Reassure about privacy protection\n\nFor ACCOUNT HELP:\n- Guide through specific account processes\n- Provide clear instructions for login/password issues\n- Explain profile settings\n\nFor FINDING CONSULTANTS:\n- Explain the consultant search process\n- Mention filtering options\n- Guide to the consultants page\n\nRemember: Always provide fresh, contextual responses. Never repeat the same troubleshooting steps. Ask follow-up questions to understand their specific situation better.\n\nRespond in a helpful, caring manner that reflects Sathi's mission of gentle mental health support."

/-- `messages.slice(-5)`. -/
def sliceLast5 (messages : List Message) : List Message :=
  messages.drop (messages.length - 5)

/-- The constant `conversationContext` of `callGeminiAPI`. -/
def conversationContext (session : Session) : JSString :=
  match session.messages with
  | some messages =>
    (str "\n").intercalate
      ((sliceLast5 messages).map (fun msg => msg.role ++ str ": " ++ msg.content))
  | none => str ""

/-- The constant `userPrompt` of `callGeminiAPI`. -/
def userPrompt (userMessage : JSString) (session : Session) : JSString :=
  if (conversationContext session).isEmpty then
    systemPrompt ++ str "\n\nUser: " ++ userMessage
  else
    systemPrompt ++ str "\n\nPrevious conversation:\n" ++ conversationContext session
      ++ str "\n\nCurrent user message: " ++ userMessage

/-- The object `generationConfig` of the request body. -/
structure GenerationConfig where
  temperature : ℚ
  topK : Nat
  topP : ℚ
  maxOutputTokens : Nat
  deriving DecidableEq

/-- The request handed to `fetch`: the URL, and of the JSON body the prompt
(`contents[0].parts[0].text`, with role `user`), the generation settings and
the safety settings as (category, threshold) pairs. The method is `POST` and
the content type `application/json`. -/
structure Request where
  url : JSString
  text : JSString
  generationConfig : GenerationConfig
  safetySettings : List (JSString × JSString)
  deriving DecidableEq

/-- The parsed body of the backend's answer. -/
structure ResponseData where
  candidates : Option (List Candidate)
  deriving DecidableEq

/-- What the awaited `fetch` produces: a rejection (network failure), or a
response with its `ok` flag, its status, its text and, when the text parses as
JSON, the parsed body. -/
inductive FetchResult where
  | rejected (error : JSString)
  | response (ok : Bool) (status : Nat) (text : JSString) (json : Option ResponseData)
  deriving DecidableEq

/-- A run of `callGeminiAPI`: the requests handed to `fetch`, and the value
returned or the error thrown. -/
structure ApiCall where
  requests : List Request
  result : Except JSString AIResponse

/-- The request `callGeminiAPI` builds. -/
def ChatService.request (svc : ChatService) (userMessage : JSString) (session : Session) :
    Request :=
  { url := svc.geminiApiUrl ++ str "?key=" ++ svc.geminiApiKey,
    text := userPrompt userMessage session,
    generationConfig := { temperature := 0.9, topK := 40, topP := 0.95, maxOutputTokens := 1024 },
    safetySettings :=
      [(str "HARM_CATEGORY_HARASSMENT", str "BLOCK_MEDIUM_AND_ABOVE"),
       (str "HARM_CATEGORY_HATE_SPEECH", str "BLOCK_MEDIUM_AND_ABOVE"),
       (str "HARM_CATEGORY_SEXUALLY_EXPLICIT", str "BLOCK_MEDIUM_AND_ABOVE"),
       (str "HARM_CATEGORY_DANGEROUS_CONTENT", str "BLOCK_MEDIUM_AND_ABOVE")] }

/-- `callGeminiAPI(userMessage, session)` against a given `fetch`. -/
def ChatService.callGeminiAPI (svc : ChatService) (fetch : Request → FetchResult)
    (userMessage : JSString) (session : Session) : ApiCall :=
  if svc.geminiApiKey.isEmpty || svc.geminiApiKey == str "your_gemini_api_key_here" then
    { requests := [],
      result := Except.ok
        { reply := str "I understand you're asking: \"" ++ userMessage
            ++ str "\". I'm currently in demo mode. To get AI-powered responses, please configure your Gemini API key. For now, I can help with our FAQ questions!",
          confidence := 0.5 } }
  else
    { requests := [svc.request userMessage session],
      result :=
        match fetch (svc.request userMessage session) with
        | FetchResult.rejected error => Except.error error
        | FetchResult.response ok status errorText json =>
          if !ok then
            Except.error (str "Gemini API error: " ++ (toString status).toList ++ str " - "
              ++ errorText)
          else
            match json with
            | none => Except.error (str "invalid json response body")
            | some data =>
              match data.candidates with
              | none => Except.error (str "No response from Gemini API")
              | some [] => Except.error (str "No response from Gemini API")
              | some (candidate :: _) =>
                let reply := orElse candidate.text
                  (str "I apologize, but I couldn't generate a response.")
                let confidence := calculateConfidence candidate
                Except.ok { reply := trim reply, confidence := confidence } }

/-- The method `processMessage(userMessage, session)` of a service, against a
given `fetch`. -/
def ChatService.processMessage (svc : ChatService) (fetch : Request → FetchResult)
    (userMessage : JSString) (session : Session) : Outcome :=
  Sathi.processMessage (svc.callGeminiAPI fetch userMessage session).result userMessage

/-! ## The chat endpoint -/

/-- Truthiness of a value. -/
def JSValue.truthy : JSValue → Bool
  | JSValue.undefined => false
  | JSValue.null => false
  | JSValue.boolean b => b
  | JSValue.number n => n != 0
  | JSValue.nan => false
  | JSValue.string s => !s.isEmpty
  | JSValue.object => true

/-- The parsed `req.body`: the fields `message` and `conversationId` that the
handler reads, and the field `session` that the chat widget sends along
(`none` when the body has none). -/
structure ChatBody where
  message : JSValue
  conversationId : JSValue
  session : Option Session
  deriving DecidableEq

/-- The response of the chat endpoint: status 400 with an `error` field, or
status 200 with the five fields of the answer. -/
inductive ChatResponse where
  | badRequest (error : JSString)
  | ok (response : JSString) (conversationId : JSValue) (confidence : ℚ) (source : Source)
      (escalationOffered : Bool)
  deriving DecidableEq

/-- A run of the chat endpoint: the arguments of its calls of
`chatService.processMessage`, and the response sent. -/
structure HandlerRun where
  calls : List (JSString × Session)
  response : ChatResponse
  deriving DecidableEq

/-- The handler of `POST /api/chat` on a parsed body; `freshId` is the
identifier made from the clock and the random generator when the body has
none. The test `typeof message !== 'string'` holds for every value that is
not a string, so only a string reaches the test on `message.trim().length`.
The `catch` branch of the handler (status 500) is left out: on a parsed body
nothing in the `try` block throws, `processMessage` catching its own errors. -/
def chatHandler (chatService : ChatService) (fetch : Request → FetchResult) (freshId : JSString)
    (body : ChatBody) : HandlerRun :=
  match body.message with
  | JSValue.string message =>
    if !(JSValue.string message).truthy || length (trim message) == 0 then
      { calls := [],
        response := ChatResponse.badRequest
          (str "Message is required and must be a non-empty string") }
    else
      -- Process the message
      let session : Session := { conversationId := body.conversationId, messages := none }
      let response := chatService.processMessage fetch message session
      { calls := [(message, session)],
        response := ChatResponse.ok response.reply
          (if body.conversationId.truthy then body.conversationId else JSValue.string freshId)
          response.confidence response.source response.escalationOffered }
  | _ =>
    { calls := [],
      response := ChatResponse.badRequest
        (str "Message is required and must be a non-empty string") }

/-! ## Specification-side definitions and examples -/

/-- Rule 1 of the arbiter applies: there is an FAQ result, its confidence is
above 0.95 and the AI confidence is below 0.7. -/
def Rule1 (faqResult : Option FAQEntry) (aiResponse : AIResponse) : Prop :=
  ∃ f, faqResult = some f ∧ f.confidence > 0.95 ∧ aiResponse.confidence < 0.7

/-- An FAQ match with a given score, for the arbiter's examples. -/
def exampleMatch (score : ℚ) : FAQEntry :=
  { question := str "How do I reset my password?",
    answer := str "To reset your password, go to the login page.",
    keywords := [str "password", str "reset"],
    confidence := score }

/-- The whitespace-delimited tokens of a message: its maximal runs of
characters that are not white space. -/
def tokens (m : JSString) : List JSString :=
  (m.splitOnP isWhiteSpace).filter (fun t => !t.isEmpty)

/-- The string has no leading and no trailing white space. -/
def Trimmed (s : JSString) : Prop :=
  (∀ c ∈ s.head?, isWhiteSpace c = false) ∧ (∀ c ∈ s.getLast?, isWhiteSpace c = false)

instance trimmedDecidable (s : JSString) : Decidable (Trimmed s) := by
  unfold Trimmed
  exact inferInstance

/-- The fourth entry of the FAQ table. -/
def passwordFaq : FAQEntry :=
  { question := str "How do I reset my password?",
    answer := str "To reset your password, go to the login page and click 'Forgot Password'. Enter your email address, and we'll send you a secure link to reset your password.",
    keywords := [str "password", str "reset", str "forgot", str "login", str "access"],
    confidence := 0.9 }

/-- The seventh entry of the FAQ table. -/
def technicalFaq : FAQEntry :=
  { question := str "I'm having technical problems with the website",
    answer := str "I'm sorry you're experiencing technical issues! Here are some common solutions: 1) Try refreshing the page (Ctrl+F5), 2) Clear your browser cache, 3) Check your internet connection, 4) Try a different browser, 5) Disable browser extensions temporarily. If the problem persists, please describe the specific error message you're seeing.",
    keywords := [str "technical", str "problem", str "issue", str "website", str "loading", str "error", str "not working", str "broken", str "bug"],
    confidence := 0.9 }

/-- The sixth entry of the FAQ table. -/
def costFaq : FAQEntry :=
  { question := str "How much does it cost?",
    answer := str "Our basic platform features are free to use. Premium features and direct consultant sessions may have associated costs. You can view our pricing on the 'Pricing' page or contact support for specific details.",
    keywords := [str "cost", str "price", str "pricing", str "free", str "payment", str "billing"],
    confidence := 0.8 }

/-- The candidate carries a safety rating of probability `MEDIUM` or
`HIGH`. -/
def Candidate.blocked (candidate : Candidate) : Prop :=
  ∃ rating ∈ candidate.safetyRatings.getD [],
    rating.probability = str "MEDIUM" ∨ rating.probability = str "HIGH"

/-- The raw text of the candidate, the empty string when it is missing, has
fewer than 20 code units. -/
def Candidate.short (candidate : Candidate) : Prop :=
  length (candidate.text.getD []) < 20

/-- The lowercased raw text of the candidate contains a hedging word. -/
def Candidate.hedged (candidate : Candidate) : Prop :=
  ∃ word ∈ uncertaintyWords, word <:+: toLowerCase (candidate.text.getD [])

instance Candidate.blockedDecidable (candidate : Candidate) : Decidable candidate.blocked := by
  unfold Candidate.blocked
  exact inferInstance

instance Candidate.shortDecidable (candidate : Candidate) : Decidable candidate.short := by
  unfold Candidate.short
  exact inferInstance

instance Candidate.hedgedDecidable (candidate : Candidate) : Decidable candidate.hedged := by
  unfold Candidate.hedged
  exact inferInstance

/-- The confidence in double arithmetic as a function of the three tests:
0.8, less 0.3 when `blocked`, less 0.2 when `short`, less 0.1 when `hedged`,
each subtraction rounded, the result clamped. -/
def doubleConfidence (blocked short hedged : Bool) : ℚ :=
  let confidence : ℚ := roundDouble 0.8
  let confidence := if blocked then roundDouble (confidence - roundDouble 0.3) else confidence
  let confidence := if short then roundDouble (confidence - roundDouble 0.2) else confidence
  let confidence := if hedged then roundDouble (confidence - roundDouble 0.1) else confidence
  max 0 (min 1 confidence)

/-- A candidate with the given text and no safety ratings. -/
def textCandidate (text : JSString) : Candidate :=
  { content := some { parts := some [{ text := some text }] }, safetyRatings := none }

/-- An ok answer of the backend with status 200 and one candidate. -/
def answerWith (candidate : Candidate) : FetchResult :=
  FetchResult.response true 200 (str "") (some { candidates := some [candidate] })

/-- A session without conversation identifier and without history. -/
def emptySession : Session :=
  { conversationId := JSValue.undefined, messages := none }

/-- A request body as the chat widget sends it, with two earlier turns in
`session.messages`. -/
def historyBody : ChatBody :=
  { message := JSValue.string (str "And after that?"),
    conversationId := JSValue.string (str "conv_1"),
    session := some
      { conversationId := JSValue.undefined,
        messages := some
          [{ role := str "user", content := str "How do I reset my password?" },
           { role := str "assistant", content := str "Open the login page first." }] } }

/-! ## The arbiter's three rules -/

theorem arbitrate_of_rule1 (f : FAQEntry) (ai : AIResponse)
    (hf : f.confidence > 0.95) (ha : ai.confidence < 0.7) :
    arbitrate (some f) ai =
      { reply := f.answer, confidence := f.confidence, source := Source.faq,
        escalationOffered := false } := by
  simp [arbitrate, Option.filter, hf, ha]

theorem arbitrate_of_not_rule1 (faqResult : Option FAQEntry) (ai : AIResponse)
    (h : ¬ Rule1 faqResult ai) :
    arbitrate faqResult ai =
      if shouldOfferEscalation ai faqResult then
        { reply := ai.reply ++ escalationSuffix, confidence := ai.confidence,
          source := Source.ai_with_escalation, escalationOffered := true }
      else
        { reply := ai.reply, confidence := ai.confidence, source := Source.ai,
          escalationOffered := false } := by
  cases faqResult with
  | none => simp [arbitrate, Option.filter]
  | some f =>
    have h2 : ¬ (f.confidence > 0.95 ∧ ai.confidence < 0.7) := fun hc => h ⟨f, rfl, hc⟩
    have h3 : (decide (f.confidence > 0.95) && decide (ai.confidence < 0.7)) = false := by
      simpa using h2
    simp only [arbitrate, Option.filter, h3]
    simp

/-! ## String primitives -/

/-- The pieces `split(/\s+/)` yields on a few strings: runs of white space
are one separator, and a leading or trailing run leaves an empty piece. -/
theorem splitWhiteSpace_examples :
    splitWhiteSpace (str "") = [str ""] ∧
      splitWhiteSpace (str " ") = [str "", str ""] ∧
      splitWhiteSpace (str "reset  my\tpassword") = [str "reset", str "my", str "password"] ∧
      splitWhiteSpace (str "  a b ") = [str "", str "a", str "b", str ""] := by
  decide!

theorem includes_iff (s sub : JSString) : includes s sub = true ↔ sub <:+: s := by
  induction s with
  | nil => simp [includes, List.isEmpty_iff]
  | cons c cs ih =>
    simp only [includes, Bool.or_eq_true, ih, List.infix_cons_iff, List.isPrefixOf_iff_prefix]

/-! ## Claims on the arbiter -/

/-- C1: rule 1 of the arbiter wins first. For every FAQ match with score above
0.95 and every AI response with confidence below 0.7, the decision returns the
FAQ answer verbatim, the FAQ score as confidence, source `faq` and no
escalation offer, whatever the AI reply is; and so does `processMessage` for a
message on which `checkFAQ` returns that match. -/
theorem C1_rule1_answers_from_faq (f : FAQEntry) (ai : AIResponse)
    (hf : f.confidence > 0.95) (ha : ai.confidence < 0.7) :
    arbitrate (some f) ai =
        { reply := f.answer, confidence := f.confidence, source := Source.faq,
          escalationOffered := false } ∧
      ∀ userMessage, checkFAQ userMessage = some f →
        processMessage (Except.ok ai) userMessage =
          { reply := f.answer, confidence := f.confidence, source := Source.faq,
            escalationOffered := false } := by
  refine ⟨arbitrate_of_rule1 f ai hf ha, ?_⟩
  intro userMessage hm
  simp only [processMessage, hm]
  exact arbitrate_of_rule1 f ai hf ha

/-- Witness of C1: score 0.96 and AI confidence 0.65, with an AI reply for
which the escalation policy holds. -/
theorem C1_rule1_answers_from_faq_witness :
    ((exampleMatch 0.96).confidence > 0.95 ∧ (0.65 : ℚ) < 0.7) ∧
      shouldOfferEscalation { reply := str "I don't know", confidence := 0.65 }
        (some (exampleMatch 0.96)) = true ∧
      arbitrate (some (exampleMatch 0.96)) { reply := str "I don't know", confidence := 0.65 } =
        { reply := (exampleMatch 0.96).answer, confidence := 0.96, source := Source.faq,
          escalationOffered := false } :=
  ⟨by decide!, by decide!,
    (C1_rule1_answers_from_faq (exampleMatch 0.96) { reply := str "I don't know", confidence := 0.65 }
      (by decide!) (by decide!)).1⟩

/-- C2: rule 2 of the arbiter. When rule 1 does not apply and
`shouldOfferEscalation` is true, the outcome has source `ai_with_escalation`,
offers escalation, carries the AI confidence, and its reply starts with the AI
reply and ends with the fixed escalation sentence. -/
theorem C2_rule2_escalates (faqResult : Option FAQEntry) (ai : AIResponse)
    (h1 : ¬ Rule1 faqResult ai) (h2 : shouldOfferEscalation ai faqResult = true) :
    (arbitrate faqResult ai).source = Source.ai_with_escalation ∧
      (arbitrate faqResult ai).escalationOffered = true ∧
      (arbitrate faqResult ai).confidence = ai.confidence ∧
      ai.reply <+: (arbitrate faqResult ai).reply ∧
      str "I'm not entirely sure about that. Would you like me to connect you to a human support agent who can help you better?"
        <:+ (arbitrate faqResult ai).reply := by
  rw [arbitrate_of_not_rule1 faqResult ai h1, h2]
  refine ⟨rfl, rfl, rfl, List.prefix_append _ _, ?_⟩
  exact ⟨ai.reply ++ str "\n\n", by simp [escalationSuffix, str]⟩

/-- Witness of C2: no FAQ result, reply "I'm not sure about that" with
confidence 0.9. -/
theorem C2_rule2_escalates_witness :
    (arbitrate none { reply := str "I'm not sure about that", confidence := 0.9 }).source =
        Source.ai_with_escalation ∧
      str "I'm not entirely sure about that. Would you like me to connect you to a human support agent who can help you better?"
        <:+ (arbitrate none { reply := str "I'm not sure about that", confidence := 0.9 }).reply :=
  have h := C2_rule2_escalates none { reply := str "I'm not sure about that", confidence := 0.9 }
    (by rintro ⟨f, hf, _⟩; exact Option.noConfusion hf) (by decide!)
  ⟨h.1, h.2.2.2.2⟩

/-- C3: rule 3 of the arbiter. When rule 1 does not apply and
`shouldOfferEscalation` is false, the outcome is the AI reply unchanged, with
the AI confidence, source `ai` and no escalation offer. -/
theorem C3_rule3_plain_ai (faqResult : Option FAQEntry) (ai : AIResponse)
    (h1 : ¬ Rule1 faqResult ai) (h2 : shouldOfferEscalation ai faqResult = false) :
    arbitrate faqResult ai =
      { reply := ai.reply, confidence := ai.confidence, source := Source.ai,
        escalationOffered := false } := by
  rw [arbitrate_of_not_rule1 faqResult ai h1, h2]
  simp

/-- Witness of C3: an FAQ match with score 0.9 and a confident AI reply. -/
theorem C3_rule3_plain_ai_witness :
    arbitrate (some (exampleMatch 0.9))
        { reply := str "Go to the login page.", confidence := 0.8 } =
      { reply := str "Go to the login page.", confidence := 0.8, source := Source.ai,
        escalationOffered := false } :=
  C3_rule3_plain_ai (some (exampleMatch 0.9))
    { reply := str "Go to the login page.", confidence := 0.8 }
    (by
      rintro ⟨f, hf, h95, _⟩
      have hc : f = exampleMatch 0.9 := (Option.some.inj hf).symm
      subst hc
      exact absurd h95 (by decide!))
    (by decide!)

/-- C4: escalation eligibility is exactly the three-way disjunction: the AI
confidence is below 0.6, or the FAQ result is absent or has score below 0.5,
or the lowercased AI reply contains one of the six uncertainty phrases. In
particular an FAQ score of 0.9 with AI confidence 0.3 escalates. -/
theorem C4_escalation_eligibility :
    (∀ (ai : AIResponse) (faqResult : Option FAQEntry),
      shouldOfferEscalation ai faqResult = true ↔
        (ai.confidence < 0.6 ∨
          (faqResult = none ∨ ∃ f, faqResult = some f ∧ f.confidence < 0.5) ∨
          ∃ phrase ∈ [str "i don't know", str "i'm not sure", str "i can't help",
              str "i'm unable to", str "i don't have information", str "i'm not certain"],
            phrase <:+: toLowerCase ai.reply)) ∧
      shouldOfferEscalation { reply := str "Please open the login page.", confidence := 0.3 }
        (some (exampleMatch 0.9)) = true := by
  refine ⟨?_, by decide!⟩
  intro ai faqResult
  unfold shouldOfferEscalation
  by_cases hc : ai.confidence < 0.6
  · simp [hc]
  · cases faqResult with
    | none => simp [hc]
    | some f =>
      by_cases hf : f.confidence < 0.5
      · simp [hc, hf]
      · simp only [hc, hf, if_false, false_or, decide_False, Bool.false_eq_true,
          Option.some.injEq, exists_eq_left', reduceCtorEq, List.any_eq_true, includes_iff,
          uncertaintyPhrases]

/-! ## Scoring lemmas -/

theorem foldl_bonus {α : Type} (p : α → Bool) (c : ℚ) (l : List α) (init : ℚ) :
    l.foldl (fun score x => if p x then score + c else score) init
      = init + c * (l.countP p : ℕ) := by
  induction l generalizing init with
  | nil => simp
  | cons x xs ih =>
    rw [List.foldl_cons, ih, List.countP_cons]
    by_cases hx : p x = true
    · simp only [hx, if_true]; push_cast; ring
    · simp only [hx, if_false]; simp

theorem foldl_foldl_bonus {α β : Type} (q : α → β → Bool) (c : ℚ) (ws : List α) (ks : List β)
    (init : ℚ) :
    ws.foldl (fun score w => ks.foldl (fun score k => if q w k then score + c else score) score)
        init
      = init + c * ((List.product ws ks).countP (fun p => q p.1 p.2) : ℕ) := by
  induction ws generalizing init with
  | nil => simp
  | cons w ws ih =>
    have hp : List.product (w :: ws) ks = ks.map (fun b => (w, b)) ++ List.product ws ks :=
      List.product_cons w ws ks
    rw [List.foldl_cons, ih, foldl_bonus, hp, List.countP_append, List.countP_map]
    push_cast
    have : (List.countP ((fun p : α × β => q p.1 p.2) ∘ fun b => (w, b)) ks)
        = List.countP (q w) ks := rfl
    rw [this]
    ring

/-- The accumulated score as a closed formula over the entry's lowercased
keywords and the pieces of the message. -/
theorem accumulated_eq (m : JSString) (e : FAQEntry) :
    calculateMatchScore.accumulated m e
      = (if includes m (toLowerCase e.question) then 1 else 0)
        + 0.2 * (e.keywords.countP (fun k => includes m (toLowerCase k)) : ℕ)
        + 0.1 * ((List.product (splitWhiteSpace m) e.keywords).countP
            (fun p => includes (toLowerCase p.2) p.1 || includes p.1 (toLowerCase p.2)) : ℕ) := by
  unfold calculateMatchScore.accumulated
  simp only []
  rw [foldl_foldl_bonus (fun w k => includes (toLowerCase k) w || includes w (toLowerCase k)),
    foldl_bonus (fun k => includes m (toLowerCase k))]
  split <;> norm_num

theorem accumulated_nonneg (m : JSString) (e : FAQEntry) :
    0 ≤ calculateMatchScore.accumulated m e := by
  rw [accumulated_eq]
  have h1 : (0 : ℚ) ≤ (if includes m (toLowerCase e.question) then 1 else 0) := by
    split <;> norm_num
  positivity

theorem calculateMatchScore_nonneg (m : JSString) (e : FAQEntry) :
    0 ≤ calculateMatchScore m e := by
  unfold calculateMatchScore
  exact le_min (by norm_num) (accumulated_nonneg m e)

theorem calculateMatchScore_le_one (m : JSString) (e : FAQEntry) :
    calculateMatchScore m e ≤ 1 := by
  unfold calculateMatchScore
  exact (min_le_left _ _).trans (by norm_num)

/-! ## Splitting on white space -/

theorem splitWhiteSpace_cons (c : Char) (cs : JSString) :
    splitWhiteSpace (c :: cs) =
      if isWhiteSpace c then
        match cs with
        | [] => [[], []]
        | d :: _ => if isWhiteSpace d then splitWhiteSpace cs else [] :: splitWhiteSpace cs
      else
        match splitWhiteSpace cs with
        | [] => [[c]]
        | t :: ts => (c :: t) :: ts :=
  rfl

theorem splitWhiteSpace_cons_of_not_ws (c : Char) (cs : JSString) (hc : isWhiteSpace c = false) :
    splitWhiteSpace (c :: cs)
      = (c :: (splitWhiteSpace cs).headD []) :: (splitWhiteSpace cs).tail := by
  rw [splitWhiteSpace_cons]
  simp only [hc, Bool.false_eq_true, if_false]
  cases splitWhiteSpace cs <;> rfl

theorem splitWhiteSpace_cons_cons_ws (c d : Char) (rest : JSString)
    (hc : isWhiteSpace c = true) (hd : isWhiteSpace d = true) :
    splitWhiteSpace (c :: d :: rest) = splitWhiteSpace (d :: rest) := by
  rw [splitWhiteSpace_cons]
  simp only [hc, hd, if_true]

theorem splitWhiteSpace_cons_ws_cons (c d : Char) (rest : JSString)
    (hc : isWhiteSpace c = true) (hd : isWhiteSpace d = false) :
    splitWhiteSpace (c :: d :: rest) = [] :: splitWhiteSpace (d :: rest) := by
  rw [splitWhiteSpace_cons]
  simp only [hc, hd, if_true, Bool.false_eq_true, if_false]

theorem splitWhiteSpace_splitOnP (m : JSString) :
    ∃ t ts ts', splitWhiteSpace m = t :: ts ∧ m.splitOnP isWhiteSpace = t :: ts' ∧
      ts.filter (fun t => !t.isEmpty) = ts'.filter (fun t => !t.isEmpty) ∧
      ∀ d rest, m = d :: rest → isWhiteSpace d = true → t = [] := by
  induction m with
  | nil => exact ⟨[], [], [], rfl, rfl, rfl, fun d rest h => by cases h⟩
  | cons c cs ih =>
    obtain ⟨t, ts, ts', h1, h2, h3, h4⟩ := ih
    rw [List.splitOnP_cons]
    by_cases hc : isWhiteSpace c = true
    · cases cs with
      | nil =>
        refine ⟨[], [[]], [[]], ?_, ?_, rfl, fun _ _ _ _ => rfl⟩
        · rw [splitWhiteSpace_cons]; simp only [hc, if_true]
        · simp only [hc, if_true, List.splitOnP_nil]
      | cons d rest =>
        by_cases hd : isWhiteSpace d = true
        · have ht : t = [] := h4 d rest rfl hd
          subst ht
          refine ⟨[], ts, [] :: ts', ?_, ?_, ?_, fun _ _ _ _ => rfl⟩
          · rw [splitWhiteSpace_cons_cons_ws c d rest hc hd]; exact h1
          · simp only [hc, if_true, h2]
          · simpa using h3
        · refine ⟨[], t :: ts, t :: ts', ?_, ?_, ?_, fun _ _ _ _ => rfl⟩
          · rw [splitWhiteSpace_cons_ws_cons c d rest hc (by simpa using hd), h1]
          · simp only [hc, if_true, h2]
          · simp only [List.filter_cons, h3]
    · have hc' : isWhiteSpace c = false := by simpa using hc
      refine ⟨c :: t, ts, ts', ?_, ?_, h3, ?_⟩
      · rw [splitWhiteSpace_cons_of_not_ws c cs hc', h1]; rfl
      · simp [hc', h2]
      · intro d rest hm hd
        cases hm
        exact absurd hd hc

theorem splitWhiteSpace_tail_ne_nil :
    ∀ m : JSString, m ≠ [] → (∀ c ∈ m.getLast?, isWhiteSpace c = false) →
      ∀ t ∈ (splitWhiteSpace m).tail, t ≠ []
  | [], h, _ => absurd rfl h
  | [c], _, hl => by
    have hc : isWhiteSpace c = false := hl c (by simp)
    simp [splitWhiteSpace, hc]
  | c :: d :: rest, _, hl => by
    have ih := splitWhiteSpace_tail_ne_nil (d :: rest) (by simp)
      (by simpa [List.getLast?_cons_cons] using hl)
    by_cases hc : isWhiteSpace c = true
    · by_cases hd : isWhiteSpace d = true
      · rw [splitWhiteSpace_cons_cons_ws c d rest hc hd]; exact ih
      · have hd' : isWhiteSpace d = false := by simpa using hd
        rw [splitWhiteSpace_cons_ws_cons c d rest hc hd', List.tail_cons]
        intro t ht
        rw [splitWhiteSpace_cons_of_not_ws d rest hd'] at ht ih
        rcases List.mem_cons.1 ht with h | h
        · rw [h]; exact List.cons_ne_nil _ _
        · exact ih t h
    · have hc' : isWhiteSpace c = false := by simpa using hc
      rw [splitWhiteSpace_cons_of_not_ws c _ hc', List.tail_cons]
      exact ih

/-- On a non-empty string without leading or trailing white space,
`split(/\s+/)` yields exactly the whitespace-delimited tokens. -/
theorem splitWhiteSpace_eq_tokens (m : JSString) (hne : m ≠ []) (ht : Trimmed m) :
    splitWhiteSpace m = tokens m := by
  obtain ⟨t, ts, ts', h1, h2, h3, _⟩ := splitWhiteSpace_splitOnP m
  have htail := splitWhiteSpace_tail_ne_nil m hne ht.2
  rw [h1, List.tail_cons] at htail
  have hhead : t ≠ [] := by
    cases m with
    | nil => exact absurd rfl hne
    | cons c cs =>
      have hc : isWhiteSpace c = false := ht.1 c (by simp)
      rw [splitWhiteSpace_cons_of_not_ws c cs hc] at h1
      rw [← (List.cons.inj h1).1]
      exact List.cons_ne_nil _ _
  have hts : ts.filter (fun t => !t.isEmpty) = ts := by
    rw [List.filter_eq_self]
    intro a ha
    simpa [List.isEmpty_iff] using htail a ha
  have hte : (!t.isEmpty) = true := by simpa [List.isEmpty_iff] using hhead
  rw [tokens, h2, h1, List.filter_cons, hte, if_pos rfl, ← h3, hts]

/-! ## Trimming and lowercasing -/

theorem dropWhile_of_head (p : Char → Bool) (s : JSString) (h : ∀ c ∈ s.head?, p c = false) :
    s.dropWhile p = s := by
  cases s with
  | nil => rfl
  | cons c cs =>
    have hc : p c = false := h c (by simp)
    simp [List.dropWhile_cons, hc]

theorem trim_of_trimmed (s : JSString) (h : Trimmed s) : trim s = s := by
  unfold trim
  rw [dropWhile_of_head _ s h.1, dropWhile_of_head _ s.reverse (by simpa using h.2),
    List.reverse_reverse]

theorem trim_pad (pre q post : JSString) (hpre : ∀ c ∈ pre, isWhiteSpace c = true)
    (hpost : ∀ c ∈ post, isWhiteSpace c = true) (hne : q ≠ []) (hq : Trimmed q) :
    trim (pre ++ q ++ post) = q := by
  unfold trim
  have hrev : ∀ c ∈ post.reverse, isWhiteSpace c = true := by simpa using hpost
  have hhead : ∀ c ∈ (q ++ post).head?, isWhiteSpace c = false := by
    cases q with
    | nil => exact absurd rfl hne
    | cons a as => simpa using hq.1
  rw [List.append_assoc, List.dropWhile_append_of_pos hpre, dropWhile_of_head _ _ hhead,
    List.reverse_append, List.dropWhile_append_of_pos hrev,
    dropWhile_of_head _ q.reverse (by simpa using hq.2), List.reverse_reverse]

theorem trim_of_all_ws (s : JSString) (h : ∀ c ∈ s, isWhiteSpace c = true) : trim s = [] := by
  unfold trim
  rw [List.dropWhile_eq_nil_iff.2 h]
  rfl

theorem toLower_of_ws (c : Char) (h : isWhiteSpace c = true) : c.toLower = c := by
  unfold isWhiteSpace at h
  unfold Char.toLower
  simp only [Bool.or_eq_true, beq_iff_eq, Bool.and_eq_true, decide_eq_true_eq] at h
  have : ¬ (c.toNat ≥ 65 ∧ c.toNat ≤ 90) := by omega
  simp only [this, if_false]

theorem toLowerCase_of_all_ws (s : JSString) (h : ∀ c ∈ s, isWhiteSpace c = true) :
    toLowerCase s = s := by
  unfold toLowerCase
  conv_rhs => rw [← List.map_id s]
  exact List.map_congr_left (fun c hc => toLower_of_ws c (h c hc))

theorem toLowerCase_append (s t : JSString) :
    toLowerCase (s ++ t) = toLowerCase s ++ toLowerCase t := by
  simp [toLowerCase]

/-! ## The loop of `checkFAQ` -/

theorem loop_append_singleton (nm : JSString) (xs : List FAQEntry) (x : FAQEntry) :
    checkFAQ.loop nm (xs ++ [x]) = checkFAQ.step nm (checkFAQ.loop nm xs) x := by
  simp [checkFAQ.loop, List.foldl_append]

/-- What the loop of `checkFAQ` has recorded after a table: `bestScore`
bounds every score, and either nothing was recorded and `bestScore` is still
0, or `bestMatch` is the first entry that attains `bestScore`. -/
theorem loop_spec (nm : JSString) (table : List FAQEntry) :
    (∀ e ∈ table, calculateMatchScore nm e ≤ (checkFAQ.loop nm table).bestScore) ∧
      (((checkFAQ.loop nm table).bestMatch = none ∧ (checkFAQ.loop nm table).bestScore = 0) ∨
        ∃ pre e post, table = pre ++ e :: post ∧
          (checkFAQ.loop nm table).bestMatch
            = some { e with confidence := calculateMatchScore nm e } ∧
          (checkFAQ.loop nm table).bestScore = calculateMatchScore nm e ∧
          ∀ e' ∈ pre, calculateMatchScore nm e' < calculateMatchScore nm e) := by
  induction table using List.reverseRecOn with
  | nil => exact ⟨fun e he => absurd he (List.not_mem_nil e), Or.inl ⟨rfl, rfl⟩⟩
  | append_singleton xs x ih =>
    obtain ⟨hmax, hbest⟩ := ih
    rw [loop_append_singleton]
    unfold checkFAQ.step
    by_cases hx : calculateMatchScore nm x > (checkFAQ.loop nm xs).bestScore
    · simp only [hx, if_true]
      refine ⟨?_, Or.inr ⟨xs, x, [], rfl, rfl, rfl, ?_⟩⟩
      · intro e he
        rcases List.mem_append.1 he with h | h
        · exact (hmax e h).trans hx.le
        · rw [List.mem_singleton.1 h]
      · intro e' he'
        exact lt_of_le_of_lt (hmax e' he') hx
    · simp only [hx, if_false]
      refine ⟨?_, ?_⟩
      · intro e he
        rcases List.mem_append.1 he with h | h
        · exact hmax e h
        · rw [List.mem_singleton.1 h]; exact not_lt.1 hx
      · rcases hbest with h | ⟨pre, e, post, ht, hm, hs, hlt⟩
        · exact Or.inl h
        · exact Or.inr ⟨pre, e, post ++ [x], by simp [ht], hm, hs, hlt⟩

theorem checkFAQ_eq (userMessage : JSString) :
    checkFAQ userMessage =
      if (checkFAQ.loop (trim (toLowerCase userMessage)) faqData).bestScore > 0.8 then
        (checkFAQ.loop (trim (toLowerCase userMessage)) faqData).bestMatch
      else none :=
  rfl

/-- A match returned by `checkFAQ` is the first table entry that attains the
highest score, and this score exceeds 0.8. -/
theorem checkFAQ_some (userMessage : JSString) (r : FAQEntry)
    (h : checkFAQ userMessage = some r) :
    ∃ pre e post, faqData = pre ++ e :: post ∧
      r = { e with confidence := calculateMatchScore (trim (toLowerCase userMessage)) e } ∧
      0.8 < calculateMatchScore (trim (toLowerCase userMessage)) e ∧
      (∀ e' ∈ faqData, calculateMatchScore (trim (toLowerCase userMessage)) e'
        ≤ calculateMatchScore (trim (toLowerCase userMessage)) e) ∧
      ∀ e' ∈ pre, calculateMatchScore (trim (toLowerCase userMessage)) e'
        < calculateMatchScore (trim (toLowerCase userMessage)) e := by
  rw [checkFAQ_eq] at h
  obtain ⟨hmax, hbest⟩ := loop_spec (trim (toLowerCase userMessage)) faqData
  by_cases hb : (checkFAQ.loop (trim (toLowerCase userMessage)) faqData).bestScore > 0.8
  · rw [if_pos hb] at h
    rcases hbest with ⟨hn, _⟩ | ⟨pre, e, post, ht, hm, hs, hlt⟩
    · rw [hn] at h; cases h
    · rw [hm] at h
      refine ⟨pre, e, post, ht, (Option.some.inj h).symm, ?_, ?_, hlt⟩
      · rw [← hs]; exact hb
      · intro e' he'; rw [← hs]; exact hmax e' he'
  · rw [if_neg hb] at h; cases h

theorem faqData_entries : faqData[3]? = some passwordFaq ∧ faqData[6]? = some technicalFaq := by
  decide!

/-! ## Claims on the FAQ matcher -/

/-- C5: for every non-empty message without leading or trailing white space
and every entry whose keywords are lowercase, the score is, in exact
arithmetic, `min(1, A + 0.2*K + 0.1*P)`: `A` is 1 when the message contains the
lowercased question and 0 otherwise, `K` counts the keywords that are
substrings of the message, and `P` counts the pairs of a whitespace-delimited
token of the message and a keyword such that one contains the other. -/
theorem C5_score_formula (m : JSString) (e : FAQEntry) (hne : m ≠ []) (ht : Trimmed m)
    (hkw : ∀ k ∈ e.keywords, toLowerCase k = k) :
    calculateMatchScore m e =
      min 1 ((if toLowerCase e.question <:+: m then 1 else 0)
        + 0.2 * ((e.keywords.countP (fun k => decide (k <:+: m)) : ℕ) : ℚ)
        + 0.1 * (((List.product (tokens m) e.keywords).countP
            (fun p => decide (p.1 <:+: p.2 ∨ p.2 <:+: p.1)) : ℕ) : ℚ)) := by
  have hK : e.keywords.countP (fun k => includes m (toLowerCase k))
      = e.keywords.countP (fun k => decide (k <:+: m)) := by
    apply List.countP_congr
    intro k hk
    rw [hkw k hk]
    simp [includes_iff]
  have hP : (List.product (tokens m) e.keywords).countP
        (fun p => includes (toLowerCase p.2) p.1 || includes p.1 (toLowerCase p.2))
      = (List.product (tokens m) e.keywords).countP
        (fun p => decide (p.1 <:+: p.2 ∨ p.2 <:+: p.1)) := by
    apply List.countP_congr
    intro p hp
    have hk : p.2 ∈ e.keywords := (List.mem_product.1 hp).2
    rw [hkw p.2 hk]
    simp [includes_iff]
  have hA : (if includes m (toLowerCase e.question) = true then (1 : ℚ) else 0)
      = if toLowerCase e.question <:+: m then 1 else 0 := by
    simp only [includes_iff]
  unfold calculateMatchScore
  rw [accumulated_eq, splitWhiteSpace_eq_tokens m hne ht, hK, hP, hA]
  norm_num

/-- Witness of C5: the message "reset password a" against the password entry:
two keywords occur in it and four (token, keyword) pairs match, so the score is
0.8. -/
theorem C5_score_formula_witness :
    (str "reset password a" ≠ [] ∧ Trimmed (str "reset password a") ∧
        ∀ k ∈ passwordFaq.keywords, toLowerCase k = k) ∧
      calculateMatchScore (str "reset password a") passwordFaq = 0.8 ∧
      calculateMatchScore (str "reset password a") passwordFaq =
        min 1 ((if toLowerCase passwordFaq.question <:+: str "reset password a" then 1 else 0)
          + 0.2 * ((passwordFaq.keywords.countP
              (fun k => decide (k <:+: str "reset password a")) : ℕ) : ℚ)
          + 0.1 * (((List.product (tokens (str "reset password a")) passwordFaq.keywords).countP
              (fun p => decide (p.1 <:+: p.2 ∨ p.2 <:+: p.1)) : ℕ) : ℚ)) :=
  ⟨by decide!, by decide!,
    C5_score_formula (str "reset password a") passwordFaq (by decide!) (by decide!) (by decide!)⟩

/-- C6: `checkFAQ` returns a match exactly when the highest per-entry score
strictly exceeds 0.8, and a returned match carries the question, answer and
keywords of a table entry with that entry's computed score as confidence. A
best score of exactly 0.8 is not accepted: "reset password a" scores 0.8 on the
password entry, no entry scores more, and no match is returned. -/
theorem C6_acceptance_threshold :
    (∀ userMessage : JSString,
      ((checkFAQ userMessage).isSome = true ↔
        ∃ e ∈ faqData,
          (∀ e' ∈ faqData, calculateMatchScore (trim (toLowerCase userMessage)) e'
            ≤ calculateMatchScore (trim (toLowerCase userMessage)) e) ∧
          0.8 < calculateMatchScore (trim (toLowerCase userMessage)) e) ∧
      ∀ r, checkFAQ userMessage = some r →
        ∃ e ∈ faqData, r.question = e.question ∧ r.answer = e.answer ∧
          r.keywords = e.keywords ∧
          r.confidence = calculateMatchScore (trim (toLowerCase userMessage)) e) ∧
      (calculateMatchScore (trim (toLowerCase (str "reset password a"))) passwordFaq = 0.8 ∧
        (∀ e ∈ faqData,
          calculateMatchScore (trim (toLowerCase (str "reset password a"))) e ≤ 0.8) ∧
        checkFAQ (str "reset password a") = none) := by
  refine ⟨fun userMessage => ⟨⟨?_, ?_⟩, ?_⟩, by decide!, by decide!, by decide!⟩
  · intro h
    obtain ⟨r, hr⟩ := Option.isSome_iff_exists.1 h
    obtain ⟨pre, e, post, ht, _, h8, hmax, _⟩ := checkFAQ_some userMessage r hr
    exact ⟨e, by rw [ht]; simp, hmax, h8⟩
  · rintro ⟨e, he, _, h8⟩
    obtain ⟨hmax, hbest⟩ := loop_spec (trim (toLowerCase userMessage)) faqData
    have hb : (checkFAQ.loop (trim (toLowerCase userMessage)) faqData).bestScore > 0.8 :=
      lt_of_lt_of_le h8 (hmax e he)
    rw [checkFAQ_eq, if_pos hb]
    rcases hbest with ⟨_, h0⟩ | ⟨pre, e1, post, _, hm, _, _⟩
    · rw [h0] at hb; norm_num at hb
    · rw [hm]; rfl
  · intro r hr
    obtain ⟨pre, e, post, ht, hre, _, _, _⟩ := checkFAQ_some userMessage r hr
    exact ⟨e, by rw [ht]; simp, by rw [hre], by rw [hre], by rw [hre], by rw [hre]⟩

/-- C7: a match returned by `checkFAQ` is a table entry that attains the
maximum score over the whole table, and every entry declared before it has a
strictly smaller score. -/
theorem C7_best_match_first_seen (userMessage : JSString) (r : FAQEntry)
    (h : checkFAQ userMessage = some r) :
    ∃ pre e post, faqData = pre ++ e :: post ∧
      r = { e with confidence := calculateMatchScore (trim (toLowerCase userMessage)) e } ∧
      (∀ e' ∈ faqData, calculateMatchScore (trim (toLowerCase userMessage)) e'
        ≤ calculateMatchScore (trim (toLowerCase userMessage)) e) ∧
      ∀ e' ∈ pre, calculateMatchScore (trim (toLowerCase userMessage)) e'
        < calculateMatchScore (trim (toLowerCase userMessage)) e := by
  obtain ⟨pre, e, post, ht, hre, _, hmax, hlt⟩ := checkFAQ_some userMessage r h
  exact ⟨pre, e, post, ht, hre, hmax, hlt⟩

/-- Witness of C7: on "error website loading not working" the seventh and
the eighth entry both reach the clamped score 1, and the seventh is
returned. -/
theorem C7_best_match_first_seen_witness :
    checkFAQ (str "error website loading not working")
        = some { technicalFaq with confidence := 1 } ∧
      (faqData.map (calculateMatchScore (str "error website loading not working")))
        = [0, 0, 0, 0, 0, 0, 1, 1, 0.4, 0, 0] ∧
      ∃ pre e post, faqData = pre ++ e :: post ∧
        { technicalFaq with confidence := 1 } =
          { e with confidence :=
              (calculateMatchScore (trim (toLowerCase (str "error website loading not working"))) e) } ∧
        (∀ e' ∈ faqData,
          calculateMatchScore (trim (toLowerCase (str "error website loading not working"))) e'
            ≤ calculateMatchScore
                (trim (toLowerCase (str "error website loading not working"))) e) ∧
        ∀ e' ∈ pre,
          calculateMatchScore (trim (toLowerCase (str "error website loading not working"))) e'
            < calculateMatchScore
                (trim (toLowerCase (str "error website loading not working"))) e :=
  ⟨by decide!, by decide!,
    C7_best_match_first_seen (str "error website loading not working")
      { technicalFaq with confidence := 1 } (by decide!)⟩

/-- C8: for every message string and every entry the score lies in the closed
interval from 0 to 1, and so does the confidence of every match returned by
`checkFAQ`. -/
theorem C8_score_in_unit_interval :
    (∀ (m : JSString) (e : FAQEntry),
      0 ≤ calculateMatchScore m e ∧ calculateMatchScore m e ≤ 1) ∧
      ∀ (userMessage : JSString) (r : FAQEntry), checkFAQ userMessage = some r →
        0 ≤ r.confidence ∧ r.confidence ≤ 1 := by
  refine ⟨fun m e => ⟨calculateMatchScore_nonneg m e, calculateMatchScore_le_one m e⟩, ?_⟩
  intro userMessage r hr
  obtain ⟨pre, e, post, _, hre, _, _, _⟩ := checkFAQ_some userMessage r hr
  rw [hre]
  exact ⟨calculateMatchScore_nonneg _ e, calculateMatchScore_le_one _ e⟩

/-- C9 fails as stated: the empty message splits into one empty piece, which
is a substring of every keyword, so every entry of the table scores above 0 on
it; the best score exceeds 0.8 and `checkFAQ` returns the entry on technical
problems. A message of white space only normalises to the empty message and
gets the same result. -/
theorem C9_empty_message_counterexample :
    splitWhiteSpace [] = [[]] ∧ trim (toLowerCase []) = [] ∧
      (∀ e ∈ faqData, 0 < calculateMatchScore (trim (toLowerCase [])) e) ∧
      (∃ r, checkFAQ [] = some r ∧ r.question = technicalFaq.question ∧ 0.8 < r.confidence) ∧
      ∀ userMessage : JSString, (∀ c ∈ userMessage, isWhiteSpace c = true) →
        trim (toLowerCase userMessage) = [] ∧ checkFAQ userMessage = checkFAQ [] := by
  refine ⟨rfl, rfl, by decide!, ⟨technicalFaq, by decide!, rfl, by decide!⟩, ?_⟩
  intro userMessage hws
  have hn : trim (toLowerCase userMessage) = [] := by
    rw [toLowerCase_of_all_ws userMessage hws]
    exact trim_of_all_ws userMessage hws
  refine ⟨hn, ?_⟩
  rw [checkFAQ_eq, checkFAQ_eq, hn]
  rfl

theorem faqData_questions :
    ∀ e ∈ faqData, toLowerCase e.question ≠ [] ∧ Trimmed (toLowerCase e.question) := by
  decide!

/-- C10: for every entry of the built-in table, when the whole message is the
entry's canonical question in any letter case, optionally surrounded by white
space, the score computed for that entry is exactly 1, and it is at least 1
before clamping. -/
theorem C10_canonical_question_scores_one (e : FAQEntry) (he : e ∈ faqData)
    (pre q post : JSString) (hpre : ∀ c ∈ pre, isWhiteSpace c = true)
    (hpost : ∀ c ∈ post, isWhiteSpace c = true)
    (hq : toLowerCase q = toLowerCase e.question) :
    calculateMatchScore (trim (toLowerCase (pre ++ q ++ post))) e = 1 ∧
      1 ≤ calculateMatchScore.accumulated (trim (toLowerCase (pre ++ q ++ post))) e := by
  obtain ⟨hne, htr⟩ := faqData_questions e he
  have hn : trim (toLowerCase (pre ++ q ++ post)) = toLowerCase e.question := by
    rw [toLowerCase_append, toLowerCase_append, toLowerCase_of_all_ws pre hpre,
      toLowerCase_of_all_ws post hpost, hq]
    exact trim_pad pre _ post hpre hpost hne htr
  have hacc : 1 ≤ calculateMatchScore.accumulated (toLowerCase e.question) e := by
    rw [accumulated_eq]
    have hi : includes (toLowerCase e.question) (toLowerCase e.question) = true :=
      (includes_iff _ _).2 List.infix_rfl
    rw [if_pos hi]
    have h2 : (0 : ℚ) ≤ 0.2 * ((e.keywords.countP
        (fun k => includes (toLowerCase e.question) (toLowerCase k)) : ℕ) : ℚ) := by positivity
    have h3 : (0 : ℚ) ≤ 0.1 * (((List.product (splitWhiteSpace (toLowerCase e.question))
        e.keywords).countP (fun p => includes (toLowerCase p.2) p.1
          || includes p.1 (toLowerCase p.2)) : ℕ) : ℚ) := by positivity
    linarith
  rw [hn]
  refine ⟨?_, hacc⟩
  unfold calculateMatchScore
  rw [min_eq_left (by norm_num; exact hacc)]
  norm_num

/-- Witness of C10: the password question in capitals, with white space
around it. -/
theorem C10_canonical_question_scores_one_witness :
    passwordFaq ∈ faqData ∧
      calculateMatchScore
        (trim (toLowerCase (str "  " ++ str "HOW DO I RESET MY PASSWORD?" ++ str "\n")))
        passwordFaq = 1 ∧
      checkFAQ (str "  HOW DO I RESET MY PASSWORD?\n") = some { passwordFaq with confidence := 1 } :=
  ⟨by decide!,
    (C10_canonical_question_scores_one passwordFaq (by decide!) (str "  ")
      (str "HOW DO I RESET MY PASSWORD?") (str "\n") (by decide!) (by decide!) (by decide!)).1,
    by decide!⟩

/-! ## The score as a sum of three bonuses -/

/-- The score of a non-empty trimmed message on an entry with lowercase
keywords, as the clamped sum of the three bonuses. -/
theorem score_formula (m : JSString) (e : FAQEntry) (hne : m ≠ []) (ht : Trimmed m)
    (hkw : ∀ k ∈ e.keywords, toLowerCase k = k) :
    calculateMatchScore m e =
      min 1 ((if toLowerCase e.question <:+: m then 1 else 0)
        + 0.2 * ((e.keywords.countP (fun k => decide (k <:+: m)) : ℕ) : ℚ)
        + 0.1 * (((List.product (tokens m) e.keywords).countP
            (fun p => decide (p.1 <:+: p.2 ∨ p.2 <:+: p.1)) : ℕ) : ℚ)) := by
  have hK : e.keywords.countP (fun k => includes m (toLowerCase k))
      = e.keywords.countP (fun k => decide (k <:+: m)) := by
    apply List.countP_congr
    intro k hk
    rw [hkw k hk]
    simp [includes_iff]
  have hP : (List.product (tokens m) e.keywords).countP
        (fun p => includes (toLowerCase p.2) p.1 || includes p.1 (toLowerCase p.2))
      = (List.product (tokens m) e.keywords).countP
        (fun p => decide (p.1 <:+: p.2 ∨ p.2 <:+: p.1)) := by
    apply List.countP_congr
    intro p hp
    have hk : p.2 ∈ e.keywords := (List.mem_product.1 hp).2
    rw [hkw p.2 hk]
    simp [includes_iff]
  have hA : (if includes m (toLowerCase e.question) = true then (1 : ℚ) else 0)
      = if toLowerCase e.question <:+: m then 1 else 0 := by
    simp only [includes_iff]
  unfold calculateMatchScore
  rw [accumulated_eq, splitWhiteSpace_eq_tokens m hne ht, hK, hP, hA]
  norm_num

/-- Every piece of `split(/\s+/)` occurs in the string, and the first piece
is a prefix of it. -/
theorem splitWhiteSpace_occurs (m : JSString) :
    (splitWhiteSpace m).headD [] <+: m ∧ ∀ t ∈ splitWhiteSpace m, t <:+: m := by
  induction m with
  | nil =>
    refine ⟨List.prefix_rfl, ?_⟩
    intro t ht
    simp [splitWhiteSpace] at ht
    rw [ht]
  | cons c cs ih =>
    obtain ⟨ihh, iht⟩ := ih
    by_cases hc : isWhiteSpace c = true
    · cases cs with
      | nil =>
        have h2 : splitWhiteSpace [c] = [[], []] := by
          rw [splitWhiteSpace_cons]; simp only [hc, if_true]
        rw [h2]
        refine ⟨List.nil_prefix, ?_⟩
        intro t ht
        have : t = [] := by simpa using ht
        rw [this]; exact List.nil_infix
      | cons d rest =>
        by_cases hd : isWhiteSpace d = true
        · rw [splitWhiteSpace_cons_cons_ws c d rest hc hd]
          obtain ⟨t0, ts, ts', h1, _, _, h4⟩ := splitWhiteSpace_splitOnP (d :: rest)
          have ht0 : t0 = [] := h4 d rest rfl hd
          refine ⟨?_, fun t ht => (iht t ht).trans (List.infix_cons List.infix_rfl)⟩
          rw [h1, ht0]; exact List.nil_prefix
        · rw [splitWhiteSpace_cons_ws_cons c d rest hc (by simpa using hd)]
          refine ⟨List.nil_prefix, ?_⟩
          intro t ht
          rcases List.mem_cons.1 ht with h | h
          · rw [h]; exact List.nil_infix
          · exact (iht t h).trans (List.infix_cons List.infix_rfl)
    · have hc' : isWhiteSpace c = false := by simpa using hc
      rw [splitWhiteSpace_cons_of_not_ws c cs hc']
      have hp : c :: (splitWhiteSpace cs).headD [] <+: c :: cs :=
        (List.prefix_cons_inj c).2 ihh
      refine ⟨hp, ?_⟩
      intro t ht
      rcases List.mem_cons.1 ht with h | h
      · rw [h]; exact hp.isInfix
      · exact (iht t (List.mem_of_mem_tail h)).trans (List.infix_cons List.infix_rfl)

theorem tokens_occur (m : JSString) (hne : m ≠ []) (ht : Trimmed m) :
    ∀ t ∈ tokens m, t <:+: m := by
  rw [← splitWhiteSpace_eq_tokens m hne ht]
  exact (splitWhiteSpace_occurs m).2

theorem min_one_mono {a b : ℚ} (h : a ≤ b) : min 1 a ≤ min 1 b :=
  min_le_min le_rfl h

/-! ## Claims on the bonuses and on what `checkFAQ` hands over -/

/-- C11 fails as stated: no keyword of the password entry occurs in the
message "log" and the message does not contain the entry's question, yet the
token "log" occurs in the keyword "login" and the score is 0.1. -/
theorem C11_zero_boundary_counterexample :
    passwordFaq ∈ faqData ∧
      trim (toLowerCase (str "log")) = str "log" ∧
      (∀ k ∈ passwordFaq.keywords, ¬ k <:+: str "log") ∧
      ¬ toLowerCase passwordFaq.question <:+: str "log" ∧
      calculateMatchScore (str "log") passwordFaq = 0.1 ∧
      ¬ ∀ (m : JSString) (e : FAQEntry), (∀ k ∈ e.keywords, ¬ k <:+: m) →
          ¬ toLowerCase e.question <:+: m → calculateMatchScore m e = 0 := by
  refine ⟨by decide!, by decide!, by decide!, by decide!, by decide!, ?_⟩
  intro h
  have h0 := h (str "log") passwordFaq (by decide!) (by decide!)
  exact absurd h0 (by decide!)

/-- C11, amended: for every non-empty normalized message and every entry with
lowercase keywords, if no keyword is a substring of the message, no
whitespace-delimited token of the message is a substring of a keyword, and the
message does not contain the lowercased question, the score is exactly 0. -/
theorem C11_zero_boundary (m : JSString) (e : FAQEntry) (hne : m ≠ []) (ht : Trimmed m)
    (hkw : ∀ k ∈ e.keywords, toLowerCase k = k)
    (hk : ∀ k ∈ e.keywords, ¬ k <:+: m)
    (htok : ∀ t ∈ tokens m, ∀ k ∈ e.keywords, ¬ t <:+: k)
    (hq : ¬ toLowerCase e.question <:+: m) :
    calculateMatchScore m e = 0 := by
  have hK : e.keywords.countP (fun k => decide (k <:+: m)) = 0 := by
    rw [List.countP_eq_zero]
    intro k hk'
    simpa using hk k hk'
  have hP : (List.product (tokens m) e.keywords).countP
      (fun p => decide (p.1 <:+: p.2 ∨ p.2 <:+: p.1)) = 0 := by
    rw [List.countP_eq_zero]
    intro p hp
    obtain ⟨h1, h2⟩ := List.mem_product.1 hp
    have ha : ¬ p.1 <:+: p.2 := htok p.1 h1 p.2 h2
    have hb : ¬ p.2 <:+: p.1 := fun hc => hk p.2 h2 (hc.trans (tokens_occur m hne ht p.1 h1))
    simp [ha, hb]
  rw [score_formula m e hne ht hkw, hK, hP, if_neg hq]
  norm_num

/-- Witness of C11: "hey!" against the password entry. -/
theorem C11_zero_boundary_witness :
    (str "hey!" ≠ [] ∧ Trimmed (str "hey!")) ∧ calculateMatchScore (str "hey!") passwordFaq = 0 :=
  ⟨by decide!,
    C11_zero_boundary (str "hey!") passwordFaq (by decide!) (by decide!) (by decide!)
      (by decide!) (by decide!) (by decide!)⟩

/-- C12 fails as stated: two keywords of the password entry occur in "reset
password" and the same two in "how do i reset my password?", yet the first
message scores 0.6 and the second, which contains the question, scores 1.
Likewise one keyword occurs in "reset" and none in "a a a a", whose four
tokens each occur in two keywords: the scores are 0.3 and 0.8. -/
theorem C12_keyword_monotonicity_counterexample :
    passwordFaq.keywords.countP (fun k => decide (k <:+: str "reset password")) = 2 ∧
      passwordFaq.keywords.countP
        (fun k => decide (k <:+: str "how do i reset my password?")) = 2 ∧
      calculateMatchScore (str "reset password") passwordFaq = 0.6 ∧
      calculateMatchScore (str "how do i reset my password?") passwordFaq = 1 ∧
      passwordFaq.keywords.countP (fun k => decide (k <:+: str "reset")) = 1 ∧
      passwordFaq.keywords.countP (fun k => decide (k <:+: str "a a a a")) = 0 ∧
      calculateMatchScore (str "reset") passwordFaq = 0.3 ∧
      calculateMatchScore (str "a a a a") passwordFaq = 0.8 ∧
      ¬ ∀ (e : FAQEntry) (m1 m2 : JSString),
          e.keywords.countP (fun k => decide (k <:+: m2))
            ≤ e.keywords.countP (fun k => decide (k <:+: m1)) →
          calculateMatchScore m2 e ≤ calculateMatchScore m1 e := by
  refine ⟨by decide!, by decide!, by decide!, by decide!, by decide!, by decide!, by decide!,
    by decide!, ?_⟩
  intro h
  have h0 := h passwordFaq (str "reset password") (str "how do i reset my password?")
    (by decide!)
  exact absurd h0 (by decide!)

/-- C12, amended: the score is non-decreasing in the three bonuses together.
For every entry with lowercase keywords and any two non-empty normalized
messages, if the first message contains the question whenever the second does,
has at least as many keywords occurring in it, and has at least as many
matching (token, keyword) pairs, its score is at least that of the second. -/
theorem C12_keyword_monotonicity (e : FAQEntry) (m1 m2 : JSString)
    (hne1 : m1 ≠ []) (ht1 : Trimmed m1) (hne2 : m2 ≠ []) (ht2 : Trimmed m2)
    (hkw : ∀ k ∈ e.keywords, toLowerCase k = k)
    (hA : toLowerCase e.question <:+: m2 → toLowerCase e.question <:+: m1)
    (hK : e.keywords.countP (fun k => decide (k <:+: m2))
      ≤ e.keywords.countP (fun k => decide (k <:+: m1)))
    (hP : (List.product (tokens m2) e.keywords).countP
        (fun p => decide (p.1 <:+: p.2 ∨ p.2 <:+: p.1))
      ≤ (List.product (tokens m1) e.keywords).countP
        (fun p => decide (p.1 <:+: p.2 ∨ p.2 <:+: p.1))) :
    calculateMatchScore m2 e ≤ calculateMatchScore m1 e := by
  rw [score_formula m1 e hne1 ht1 hkw, score_formula m2 e hne2 ht2 hkw]
  apply min_one_mono
  have hA' : (if toLowerCase e.question <:+: m2 then (1 : ℚ) else 0)
      ≤ if toLowerCase e.question <:+: m1 then 1 else 0 := by
    by_cases h2 : toLowerCase e.question <:+: m2
    · rw [if_pos h2, if_pos (hA h2)]
    · rw [if_neg h2]; split <;> norm_num
  have hK' : ((e.keywords.countP (fun k => decide (k <:+: m2)) : ℕ) : ℚ)
      ≤ ((e.keywords.countP (fun k => decide (k <:+: m1)) : ℕ) : ℚ) := by
    exact_mod_cast hK
  have hP' : (((List.product (tokens m2) e.keywords).countP
        (fun p => decide (p.1 <:+: p.2 ∨ p.2 <:+: p.1)) : ℕ) : ℚ)
      ≤ (((List.product (tokens m1) e.keywords).countP
        (fun p => decide (p.1 <:+: p.2 ∨ p.2 <:+: p.1)) : ℕ) : ℚ) := by
    exact_mod_cast hP
  linarith

/-- Witness of C12: "reset password" against "reset" on the password
entry. -/
theorem C12_keyword_monotonicity_witness :
    calculateMatchScore (str "reset") passwordFaq = 0.3 ∧
      calculateMatchScore (str "reset password") passwordFaq = 0.6 ∧
      calculateMatchScore (str "reset") passwordFaq
        ≤ calculateMatchScore (str "reset password") passwordFaq :=
  ⟨by decide!, by decide!,
    C12_keyword_monotonicity passwordFaq (str "reset password") (str "reset")
      (by decide!) (by decide!) (by decide!) (by decide!) (by decide!) (by decide!)
      (by decide!) (by decide!)⟩

/-- C13 fails as stated: on "reset password" the best-scoring entry is the
password entry with score 0.6, and `checkFAQ` hands its caller neither the
entry nor the score. -/
theorem C13_best_entry_below_threshold_counterexample :
    calculateMatchScore (trim (toLowerCase (str "reset password"))) passwordFaq = 0.6 ∧
      (∀ e ∈ faqData, calculateMatchScore (trim (toLowerCase (str "reset password"))) e
        ≤ calculateMatchScore (trim (toLowerCase (str "reset password"))) passwordFaq) ∧
      checkFAQ (str "reset password") = none := by
  refine ⟨by decide!, by decide!, by decide!⟩

/-- C13, amended: when the best score is at most 0.8 `checkFAQ` returns
`null`, so the arbiter sees an absent FAQ result: rule 1 does not apply and
escalation is eligible for every AI response. The best entry and its score
reach the caller only when the score exceeds 0.8, where the escalation test
`< 0.5` never holds. -/
theorem C13_best_entry_below_threshold (userMessage : JSString) :
    ((∀ e ∈ faqData, calculateMatchScore (trim (toLowerCase userMessage)) e ≤ 0.8) →
        checkFAQ userMessage = none ∧
        ∀ ai : AIResponse, ¬ Rule1 (checkFAQ userMessage) ai ∧
          shouldOfferEscalation ai (checkFAQ userMessage) = true) ∧
      ∀ r, checkFAQ userMessage = some r → 0.8 < r.confidence ∧ ¬ r.confidence < 0.5 := by
  constructor
  · intro hmax
    have hnone : checkFAQ userMessage = none := by
      cases hc : checkFAQ userMessage with
      | none => rfl
      | some r =>
        obtain ⟨pre, e, post, ht, _, h8, _, _⟩ := checkFAQ_some userMessage r hc
        have he : e ∈ faqData := by rw [ht]; simp
        exact absurd h8 (not_lt.2 (hmax e he))
    refine ⟨hnone, fun ai => ?_⟩
    rw [hnone]
    refine ⟨?_, ?_⟩
    · rintro ⟨f, hf, _⟩
      cases hf
    · unfold shouldOfferEscalation
      by_cases hc : ai.confidence < 0.6 <;> simp [hc]
  · intro r hr
    obtain ⟨pre, e, post, _, hre, h8, _, _⟩ := checkFAQ_some userMessage r hr
    have hconf : r.confidence = calculateMatchScore (trim (toLowerCase userMessage)) e := by
      rw [hre]
    rw [hconf]
    refine ⟨h8, ?_⟩
    intro h5
    have : (0.8 : ℚ) < 0.5 := h8.trans h5
    norm_num at this

/-- Witness of C13: "hey!" scores 0 on every entry, so no FAQ result reaches
the arbiter and a confident AI reply is still escalated. -/
theorem C13_best_entry_below_threshold_witness :
    checkFAQ (str "hey!") = none ∧
      shouldOfferEscalation { reply := str "Hello! How can I help you today?", confidence := 0.8 }
        (checkFAQ (str "hey!")) = true :=
  have h := (C13_best_entry_below_threshold (str "hey!")).1 (by decide!)
  ⟨h.1, (h.2 { reply := str "Hello! How can I help you today?", confidence := 0.8 }).2⟩

/-- C14 fails as stated: the table declares base confidence 0.9 for the
password entry, and on the entry's question `checkFAQ` returns it with
confidence 1. -/
theorem C14_base_confidence_ceiling_counterexample :
    passwordFaq ∈ faqData ∧ passwordFaq.confidence = 0.9 ∧
      checkFAQ (str "How do I reset my password?") = some { passwordFaq with confidence := 1 } ∧
      ¬ ∀ (userMessage : JSString) (r : FAQEntry), checkFAQ userMessage = some r →
          ∀ e ∈ faqData, e.question = r.question → r.confidence ≤ e.confidence := by
  refine ⟨by decide!, by decide!, by decide!, ?_⟩
  intro h
  have h0 := h (str "How do I reset my password?") { passwordFaq with confidence := 1 }
    (by decide!) passwordFaq (by decide!) rfl
  exact absurd h0 (by decide!)

/-- C14, amended: the confidence of a match returned by `checkFAQ` is the
computed score of the matched entry, above 0.8 and at most 1; the base
confidence declared in the table is overwritten and has no part in it. -/
theorem C14_base_confidence_ceiling (userMessage : JSString) (r : FAQEntry)
    (h : checkFAQ userMessage = some r) :
    ∃ e ∈ faqData, r = { e with confidence := r.confidence } ∧
      r.confidence = calculateMatchScore (trim (toLowerCase userMessage)) e ∧
      (∀ base : ℚ, calculateMatchScore (trim (toLowerCase userMessage))
          { e with confidence := base }
        = calculateMatchScore (trim (toLowerCase userMessage)) e) ∧
      0.8 < r.confidence ∧ r.confidence ≤ 1 := by
  obtain ⟨pre, e, post, ht, hre, h8, _, _⟩ := checkFAQ_some userMessage r h
  have hconf : r.confidence = calculateMatchScore (trim (toLowerCase userMessage)) e := by
    rw [hre]
  refine ⟨e, by rw [ht]; simp, ?_, hconf, fun base => rfl, ?_, ?_⟩
  · rw [hre]
  · rw [hconf]; exact h8
  · rw [hconf]; exact calculateMatchScore_le_one _ e

/-- Witness of C14: the sixth entry is declared with base confidence 0.8 and
is returned with confidence 1 on its own question. -/
theorem C14_base_confidence_ceiling_witness :
    checkFAQ (str "How much does it cost?") = some { costFaq with confidence := 1 } ∧
      ∃ e ∈ faqData, ({ costFaq with confidence := 1 } : FAQEntry)
          = { e with confidence := ({ costFaq with confidence := 1 } : FAQEntry).confidence } ∧
        ({ costFaq with confidence := 1 } : FAQEntry).confidence
          = calculateMatchScore (trim (toLowerCase (str "How much does it cost?"))) e ∧
        (∀ base : ℚ, calculateMatchScore (trim (toLowerCase (str "How much does it cost?")))
            { e with confidence := base }
          = calculateMatchScore (trim (toLowerCase (str "How much does it cost?"))) e) ∧
        0.8 < ({ costFaq with confidence := 1 } : FAQEntry).confidence ∧
        ({ costFaq with confidence := 1 } : FAQEntry).confidence ≤ 1 :=
  ⟨by decide!,
    C14_base_confidence_ceiling (str "How much does it cost?") { costFaq with confidence := 1 }
      (by decide!)⟩

/-! ## The AI call adapter -/

theorem orElse_nil (x : Option JSString) : orElse x [] = x.getD [] := by
  cases x with
  | none => rfl
  | some t =>
    cases t with
    | nil => rfl
    | cons c cs => rfl

theorem candidate_text (candidate : Candidate) :
    candidate.text = ((candidate.content.bind Content.parts).bind List.head?).bind Part.text := by
  unfold Candidate.text
  cases candidate.content with
  | none => rfl
  | some content =>
    cases hp : content.parts with
    | none => simp [hp]
    | some parts =>
      cases hh : parts.head? with
      | none => simp [hp, hh]
      | some part => simp [hp, hh]

/-- C15: `calculateConfidence` returns 0.8, minus 0.3 if some safety rating
has probability `MEDIUM` or `HIGH`, minus 0.2 if the text of the first part
(the empty string when missing) has fewer than 20 UTF-16 code units, minus 0.1
if the lowercased text contains one of the six hedging words, the result
clamped to the interval from 0 to 1; each deduction is applied at most
once. -/
theorem C15_confidence_heuristic (candidate : Candidate) :
    calculateConfidence candidate =
      max 0 (min 1 (0.8
        - (if ∃ rating ∈ candidate.safetyRatings.getD [],
              rating.probability = str "MEDIUM" ∨ rating.probability = str "HIGH"
            then 0.3 else 0)
        - (if length ((((candidate.content.bind Content.parts).bind List.head?).bind
              Part.text).getD []) < 20 then 0.2 else 0)
        - (if ∃ word ∈ [str "might", str "maybe", str "possibly", str "not sure",
                str "unclear", str "uncertain"],
              word <:+: toLowerCase ((((candidate.content.bind Content.parts).bind
                List.head?).bind Part.text).getD [])
            then 0.1 else 0))) := by
  rw [← candidate_text]
  unfold calculateConfidence
  have hstr : str "" = [] := rfl
  simp only [hstr, orElse_nil]
  have h3 : (uncertaintyWords.any
        (fun word => includes (toLowerCase (candidate.text.getD [])) word) = true)
      ↔ ∃ word ∈ [str "might", str "maybe", str "possibly", str "not sure",
          str "unclear", str "uncertain"], word <:+: toLowerCase (candidate.text.getD []) := by
    simp only [List.any_eq_true, includes_iff, uncertaintyWords]
  have h1 : ∀ ratings : List SafetyRating,
      (ratings.any (fun rating => rating.probability == str "HIGH"
          || rating.probability == str "MEDIUM") = true)
        ↔ ∃ rating ∈ ratings,
          rating.probability = str "MEDIUM" ∨ rating.probability = str "HIGH" := by
    intro ratings
    simp only [List.any_eq_true, Bool.or_eq_true, beq_iff_eq]
    constructor
    · rintro ⟨r, hr, h | h⟩
      · exact ⟨r, hr, Or.inr h⟩
      · exact ⟨r, hr, Or.inl h⟩
    · rintro ⟨r, hr, h | h⟩
      · exact ⟨r, hr, Or.inr h⟩
      · exact ⟨r, hr, Or.inl h⟩
  cases hs : candidate.safetyRatings with
  | none =>
    simp only [Option.getD_none, List.not_mem_nil, false_and, exists_false, if_false, h3]
    congr 2
    split <;> split <;> ring
  | some ratings =>
    simp only [Option.getD_some, h1 ratings, h3]
    congr 2
    split <;> split <;> split <;> ring

theorem callGeminiAPI_of_key (svc : ChatService) (fetch : Request → FetchResult)
    (userMessage : JSString) (session : Session)
    (hkey : svc.geminiApiKey ≠ [] ∧ svc.geminiApiKey ≠ str "your_gemini_api_key_here") :
    (svc.callGeminiAPI fetch userMessage session).requests = [svc.request userMessage session] ∧
      (svc.callGeminiAPI fetch userMessage session).result =
        match fetch (svc.request userMessage session) with
        | FetchResult.rejected error => Except.error error
        | FetchResult.response ok status errorText json =>
          if !ok then
            Except.error (str "Gemini API error: " ++ (toString status).toList ++ str " - "
              ++ errorText)
          else
            match json with
            | none => Except.error (str "invalid json response body")
            | some data =>
              match data.candidates with
              | none => Except.error (str "No response from Gemini API")
              | some [] => Except.error (str "No response from Gemini API")
              | some (candidate :: _) =>
                Except.ok
                  { reply := trim (orElse candidate.text
                      (str "I apologize, but I couldn't generate a response.")),
                    confidence := calculateConfidence candidate } := by
  have h1 : svc.geminiApiKey.isEmpty = false := by
    simpa [List.isEmpty_iff] using hkey.1
  have h2 : (svc.geminiApiKey == str "your_gemini_api_key_here") = false := by
    simpa using hkey.2
  have hc : ¬ ((svc.geminiApiKey.isEmpty || svc.geminiApiKey == str "your_gemini_api_key_here")
      = true) := by
    rw [h1, h2]; decide
  unfold ChatService.callGeminiAPI
  rw [if_neg hc]
  exact ⟨rfl, rfl⟩

/-- C16: when the backend call is made and fails, by a rejected `fetch`, a
response that is not ok (whatever its status and body), or an ok response
whose candidate list is missing or empty, `processMessage` returns exactly the
fixed apology with confidence 0, source `error` and an escalation offer, for
every message and session. -/
theorem C16_backend_failure_degrades (svc : ChatService) (fetch : Request → FetchResult)
    (userMessage : JSString) (session : Session)
    (hkey : svc.geminiApiKey ≠ [] ∧ svc.geminiApiKey ≠ str "your_gemini_api_key_here")
    (hfail : (∃ error, fetch (svc.request userMessage session) = FetchResult.rejected error) ∨
      (∃ status text json,
        fetch (svc.request userMessage session) = FetchResult.response false status text json) ∨
      (∃ status text, fetch (svc.request userMessage session)
        = FetchResult.response true status text (some { candidates := none })) ∨
      (∃ status text, fetch (svc.request userMessage session)
        = FetchResult.response true status text (some { candidates := some [] }))) :
    svc.processMessage fetch userMessage session =
      { reply := str "I apologize, but I'm experiencing technical difficulties. Please try again in a moment, or contact our support team directly.",
        confidence := 0, source := Source.error, escalationOffered := true } := by
  unfold ChatService.processMessage
  rw [(callGeminiAPI_of_key svc fetch userMessage session hkey).2]
  rcases hfail with ⟨error, h⟩ | ⟨status, text, json, h⟩ | ⟨status, text, h⟩ | ⟨status, text, h⟩
    <;> rw [h] <;> rfl

/-- Witness of C16: a message that exactly matches an FAQ entry, against a
backend that answers 503 with an error body. -/
theorem C16_backend_failure_degrades_witness :
    checkFAQ (str "How do I reset my password?") = some { passwordFaq with confidence := 1 } ∧
      (ChatService.new none none).processMessage
          (fun _ => FetchResult.response false 503 (str "upstream stack trace") none)
          (str "How do I reset my password?") { conversationId := JSValue.undefined, messages := none }
        = { reply := str "I apologize, but I'm experiencing technical difficulties. Please try again in a moment, or contact our support team directly.",
            confidence := 0, source := Source.error, escalationOffered := true } :=
  ⟨by decide!,
    C16_backend_failure_degrades (ChatService.new none none)
      (fun _ => FetchResult.response false 503 (str "upstream stack trace") none)
      (str "How do I reset my password?") { conversationId := JSValue.undefined, messages := none }
      (by decide!) (Or.inr (Or.inl ⟨503, str "upstream stack trace", none, rfl⟩))⟩

/-- C17, evaluated on the code: with `GEMINI_API_KEY` absent the constructor
stores the built-in key literal, so the demo branch is not taken and every
call hands one request to `fetch`; the demo reply with confidence 0.5 and no
request is produced only for an empty key or the placeholder key. -/
theorem C17_absent_key_calls_backend :
    (ChatService.new none none).geminiApiKey = fallbackApiKey ∧
      (∀ (fetch : Request → FetchResult) (userMessage : JSString) (session : Session),
        ((ChatService.new none none).callGeminiAPI fetch userMessage session).requests
          = [(ChatService.new none none).request userMessage session]) ∧
      ((ChatService.new none none).callGeminiAPI (fun _ => FetchResult.rejected (str "offline"))
          (str "hello") { conversationId := JSValue.undefined, messages := none }).result
        = Except.error (str "offline") ∧
      ∀ (url : JSString) (fetch : Request → FetchResult) (userMessage : JSString)
        (session : Session),
        (({ geminiApiKey := str "your_gemini_api_key_here", geminiApiUrl := url } :
            ChatService).callGeminiAPI fetch userMessage session).requests = [] ∧
        (({ geminiApiKey := str "your_gemini_api_key_here", geminiApiUrl := url } :
            ChatService).callGeminiAPI fetch userMessage session).result
          = Except.ok
            { reply := str "I understand you're asking: \"" ++ userMessage
                ++ str "\". I'm currently in demo mode. To get AI-powered responses, please configure your Gemini API key. For now, I can help with our FAQ questions!",
              confidence := 0.5 } := by
  have hkey : (ChatService.new none none).geminiApiKey ≠ [] ∧
      (ChatService.new none none).geminiApiKey ≠ str "your_gemini_api_key_here" := by decide!
  refine ⟨rfl, ?_, ?_, ?_⟩
  · intro fetch userMessage session
    exact (callGeminiAPI_of_key _ fetch userMessage session hkey).1
  · rw [(callGeminiAPI_of_key _ _ _ _ hkey).2]
  · intro url fetch userMessage session
    exact ⟨rfl, rfl⟩

theorem intercalate_cons_ne_nil (sep x : JSString) (xs : List JSString) (hx : x ≠ []) :
    sep.intercalate (x :: xs) ≠ [] := by
  cases xs with
  | nil => simpa [List.intercalate, List.intersperse] using hx
  | cons y ys => simp [List.intercalate, List.intersperse, hx]

theorem sliceLast5_spec (messages : List Message) :
    messages = messages.take (messages.length - 5) ++ sliceLast5 messages ∧
      (sliceLast5 messages).length = min messages.length 5 := by
  unfold sliceLast5
  refine ⟨(List.take_append_drop _ _).symm, ?_⟩
  rw [List.length_drop]
  omega

/-- C18: for a session history of n messages, n at least 1, the prompt is the
system prompt, the heading of the history section, the last min(n, 5) messages
in their order, each rendered as `role: content` and joined by newlines, and
then the current user message; for an absent or empty history it is the
system prompt followed by `User: ` and the message. The prompt is the text of
the request handed to the backend. -/
theorem C18_history_window (userMessage : JSString) (session : Session) :
    (∀ messages, session.messages = some messages → messages ≠ [] →
        ∃ earlier window, messages = earlier ++ window ∧
          window.length = min messages.length 5 ∧
          userPrompt userMessage session =
            systemPrompt ++ str "\n\nPrevious conversation:\n"
              ++ (str "\n").intercalate
                  (window.map (fun msg => msg.role ++ str ": " ++ msg.content))
              ++ str "\n\nCurrent user message: " ++ userMessage) ∧
      (session.messages = none ∨ session.messages = some [] →
        userPrompt userMessage session = systemPrompt ++ str "\n\nUser: " ++ userMessage) ∧
      ∀ svc : ChatService, (svc.request userMessage session).text
        = userPrompt userMessage session := by
  refine ⟨?_, ?_, fun svc => rfl⟩
  · intro messages hm hne
    obtain ⟨hsplit, hlen⟩ := sliceLast5_spec messages
    refine ⟨messages.take (messages.length - 5), sliceLast5 messages, hsplit, hlen, ?_⟩
    have hctx : conversationContext session =
        (str "\n").intercalate
          ((sliceLast5 messages).map (fun msg => msg.role ++ str ": " ++ msg.content)) := by
      unfold conversationContext
      rw [hm]
    have hpos : 0 < (sliceLast5 messages).length := by
      have : 0 < messages.length := List.length_pos.2 hne
      omega
    have hnonempty : (conversationContext session).isEmpty = false := by
      rw [hctx]
      cases hw : sliceLast5 messages with
      | nil => rw [hw] at hpos; simp at hpos
      | cons x xs =>
        have hx : x.role ++ str ": " ++ x.content ≠ [] := by simp [str]
        have := intercalate_cons_ne_nil (str "\n") (x.role ++ str ": " ++ x.content)
          (xs.map (fun msg => msg.role ++ str ": " ++ msg.content)) hx
        simpa [List.isEmpty_iff] using this
    unfold userPrompt
    rw [hnonempty, hctx]
    rfl
  · intro h
    have hctx : conversationContext session = [] := by
      unfold conversationContext
      rcases h with h | h <;> rw [h] <;> rfl
    unfold userPrompt
    rw [hctx]
    rfl

/-- C19: for every message and every backend behaviour the outcome of
`processMessage` has one of the four sources, offers escalation exactly when
the source is `ai_with_escalation` or `error`, and carries the FAQ score when
the source is `faq`, the AI confidence when it is `ai` or
`ai_with_escalation`, and 0 when it is `error`. -/
theorem C19_outcome_well_formed (backend : Except JSString AIResponse)
    (userMessage : JSString) :
    ((processMessage backend userMessage).source = Source.faq ∨
        (processMessage backend userMessage).source = Source.ai ∨
        (processMessage backend userMessage).source = Source.ai_with_escalation ∨
        (processMessage backend userMessage).source = Source.error) ∧
      ((processMessage backend userMessage).escalationOffered = true ↔
        (processMessage backend userMessage).source = Source.ai_with_escalation ∨
          (processMessage backend userMessage).source = Source.error) ∧
      ((processMessage backend userMessage).source = Source.faq →
        ∃ f, checkFAQ userMessage = some f ∧
          (processMessage backend userMessage).confidence = f.confidence) ∧
      ((processMessage backend userMessage).source = Source.ai ∨
          (processMessage backend userMessage).source = Source.ai_with_escalation →
        ∃ ai, backend = Except.ok ai ∧
          (processMessage backend userMessage).confidence = ai.confidence) ∧
      ((processMessage backend userMessage).source = Source.error →
        (processMessage backend userMessage).confidence = 0) := by
  cases backend with
  | error err =>
    have h : processMessage (Except.error err) userMessage = errorOutcome := rfl
    rw [h]
    simp [errorOutcome]
  | ok ai =>
    have h : processMessage (Except.ok ai) userMessage = arbitrate (checkFAQ userMessage) ai :=
      rfl
    rw [h]
    by_cases h1 : Rule1 (checkFAQ userMessage) ai
    · obtain ⟨f, hf, h95, h7⟩ := h1
      rw [hf, arbitrate_of_rule1 f ai h95 h7]
      simp
    · rw [arbitrate_of_not_rule1 _ ai h1]
      cases shouldOfferEscalation ai (checkFAQ userMessage) <;> simp

/-- The full pipeline is `processMessage` on what the backend call
produced. -/
theorem ChatService.processMessage_eq (svc : ChatService) (fetch : Request → FetchResult)
    (userMessage : JSString) (session : Session) :
    svc.processMessage fetch userMessage session
      = Sathi.processMessage (svc.callGeminiAPI fetch userMessage session).result userMessage :=
  rfl

/-! ## The chat endpoint -/

theorem length_eq_zero_iff (s : JSString) : length s = 0 ↔ s = [] := by
  cases s with
  | nil => simp [length]
  | cons c cs =>
    simp only [length, List.map_cons, List.sum_cons, reduceCtorEq, iff_false]
    split <;> omega

theorem trim_eq_nil_iff (s : JSString) : trim s = [] ↔ ∀ c ∈ s, isWhiteSpace c = true := by
  constructor
  · intro h
    unfold trim at h
    rw [List.reverse_eq_nil_iff, List.dropWhile_eq_nil_iff] at h
    have hd : s.dropWhile isWhiteSpace = [] := by
      cases hdw : s.dropWhile isWhiteSpace with
      | nil => rfl
      | cons a as =>
        have ha : isWhiteSpace a = true := h a (by rw [hdw]; simp)
        have hna : ¬ isWhiteSpace a = true := by
          have := List.head_dropWhile_not isWhiteSpace s (by rw [hdw]; simp)
          simpa [hdw] using this
        exact absurd ha hna
    exact List.dropWhile_eq_nil_iff.1 hd
  · exact trim_of_all_ws s

theorem chatHandler_string (chatService : ChatService) (fetch : Request → FetchResult)
    (freshId : JSString) (body : ChatBody) (s : JSString)
    (hm : body.message = JSValue.string s) :
    chatHandler chatService fetch freshId body =
      if !(JSValue.string s).truthy || length (trim s) == 0 then
        { calls := [],
          response := ChatResponse.badRequest
            (str "Message is required and must be a non-empty string") }
      else
        { calls := [(s, { conversationId := body.conversationId, messages := none })],
          response := ChatResponse.ok
            (chatService.processMessage fetch s
              { conversationId := body.conversationId, messages := none }).reply
            (if body.conversationId.truthy then body.conversationId
              else JSValue.string freshId)
            (chatService.processMessage fetch s
              { conversationId := body.conversationId, messages := none }).confidence
            (chatService.processMessage fetch s
              { conversationId := body.conversationId, messages := none }).source
            (chatService.processMessage fetch s
              { conversationId := body.conversationId, messages := none }).escalationOffered } := by
  unfold chatHandler
  rw [hm]

/-- C20: the chat endpoint answers 400 with an error body and does not call
`processMessage` when the message of the body is missing, is not a string, is
the empty string or consists of white space only; for every other body it
calls `processMessage` once, with the message, and answers with the fields of
its outcome. -/
theorem C20_invalid_input_rejected (chatService : ChatService)
    (fetch : Request → FetchResult) (freshId : JSString) (body : ChatBody) :
    ((body.message = JSValue.undefined ∨ body.message = JSValue.null ∨
          (∀ s, body.message ≠ JSValue.string s) ∨ body.message = JSValue.string [] ∨
          ∃ s, body.message = JSValue.string s ∧ ∀ c ∈ s, isWhiteSpace c = true) →
        (chatHandler chatService fetch freshId body).calls = [] ∧
        (chatHandler chatService fetch freshId body).response
          = ChatResponse.badRequest
              (str "Message is required and must be a non-empty string")) ∧
      ∀ s, body.message = JSValue.string s → (∃ c ∈ s, isWhiteSpace c = false) →
        (chatHandler chatService fetch freshId body).calls
          = [(s, { conversationId := body.conversationId, messages := none })] ∧
        ∃ conversationId,
          (chatHandler chatService fetch freshId body).response
            = ChatResponse.ok
                (chatService.processMessage fetch s
                  { conversationId := body.conversationId, messages := none }).reply
                conversationId
                (chatService.processMessage fetch s
                  { conversationId := body.conversationId, messages := none }).confidence
                (chatService.processMessage fetch s
                  { conversationId := body.conversationId, messages := none }).source
                (chatService.processMessage fetch s
                  { conversationId := body.conversationId, messages := none }).escalationOffered := by
  have hws : ∀ s : JSString, (∀ c ∈ s, isWhiteSpace c = true) →
      (!(JSValue.string s).truthy || length (trim s) == 0) = true := by
    intro s hs
    have : length (trim s) = 0 := (length_eq_zero_iff _).2 ((trim_eq_nil_iff s).2 hs)
    simp [this]
  constructor
  · intro h
    cases hm : body.message with
    | string s =>
      have hall : ∀ c ∈ s, isWhiteSpace c = true := by
        rcases h with h | h | h | h | ⟨s', h, hs'⟩
        · rw [hm] at h; cases h
        · rw [hm] at h; cases h
        · exact absurd hm (h s)
        · rw [hm] at h
          cases h
          intro c hc
          cases hc
        · rw [hm] at h
          cases h
          exact hs'
      rw [chatHandler_string chatService fetch freshId body s hm, if_pos (hws s hall)]
      exact ⟨rfl, rfl⟩
    | undefined => unfold chatHandler; rw [hm]; exact ⟨rfl, rfl⟩
    | null => unfold chatHandler; rw [hm]; exact ⟨rfl, rfl⟩
    | boolean b => unfold chatHandler; rw [hm]; exact ⟨rfl, rfl⟩
    | number n => unfold chatHandler; rw [hm]; exact ⟨rfl, rfl⟩
    | nan => unfold chatHandler; rw [hm]; exact ⟨rfl, rfl⟩
    | object => unfold chatHandler; rw [hm]; exact ⟨rfl, rfl⟩
  · intro s hm ⟨c, hc, hcw⟩
    have hne : s ≠ [] := by
      intro h0
      rw [h0] at hc
      cases hc
    have htrim : length (trim s) ≠ 0 := by
      intro h0
      have hall := (trim_eq_nil_iff s).1 ((length_eq_zero_iff _).1 h0)
      rw [hall c hc] at hcw
      cases hcw
    have hcond : ¬ ((!(JSValue.string s).truthy || length (trim s) == 0) = true) := by
      simp [JSValue.truthy, List.isEmpty_iff, hne, htrim]
    rw [chatHandler_string chatService fetch freshId body s hm, if_neg hcond]
    exact ⟨rfl, _, rfl⟩

/-! ## The table and the pipeline as a whole -/

/-- C21: every entry of the built-in FAQ table has a non-empty keyword list,
every keyword is already lowercase, and every base confidence is above 0 and at
most 1. -/
theorem C21_table_invariant :
    ∀ e ∈ faqData, e.keywords ≠ [] ∧ (∀ k ∈ e.keywords, toLowerCase k = k) ∧
      0 < e.confidence ∧ e.confidence ≤ 1 := by
  decide!

/-- Witness of C21: the password entry, with five lowercase keywords and base
confidence 0.9. -/
theorem C21_table_invariant_witness :
    passwordFaq ∈ faqData ∧ passwordFaq.keywords ≠ [] ∧
      (∀ k ∈ passwordFaq.keywords, toLowerCase k = k) ∧
      0 < passwordFaq.confidence ∧ passwordFaq.confidence ≤ 1 :=
  ⟨by decide!, C21_table_invariant passwordFaq (by decide!)⟩

theorem processMessage_ok (ai : AIResponse) (userMessage : JSString) :
    processMessage (Except.ok ai) userMessage = arbitrate (checkFAQ userMessage) ai :=
  rfl

theorem shouldOfferEscalation_none (ai : AIResponse) : shouldOfferEscalation ai none = true := by
  unfold shouldOfferEscalation
  by_cases hc : ai.confidence < 0.6 <;> simp [hc]

theorem not_rule1_none (ai : AIResponse) : ¬ Rule1 none ai := by
  rintro ⟨f, hf, _⟩
  cases hf

theorem checkFAQ_confidence (userMessage : JSString) (r : FAQEntry)
    (h : checkFAQ userMessage = some r) :
    ∃ e ∈ faqData, r.confidence = calculateMatchScore (trim (toLowerCase userMessage)) e ∧
      0.8 < r.confidence := by
  obtain ⟨pre, e, post, ht, hre, h8, _, _⟩ := checkFAQ_some userMessage r h
  have hconf : r.confidence = calculateMatchScore (trim (toLowerCase userMessage)) e := by
    rw [hre]
  exact ⟨e, by rw [ht]; simp, hconf, by rw [hconf]; exact h8⟩

/-- C23: without an accepted FAQ match the pipeline always escalates. When
`checkFAQ` returns no match and the backend call succeeds, the outcome has
source `ai_with_escalation` whatever the AI response is; source `ai` is
returned only when `checkFAQ` accepted a match with score above 0.8, the AI
confidence is at least 0.6 and the lowercased reply contains no uncertainty
phrase; and the test `faqResult.confidence < 0.5` is never true on a result of
`checkFAQ`. -/
theorem C23_no_match_always_escalates (userMessage : JSString) (ai : AIResponse) :
    (checkFAQ userMessage = none →
        processMessage (Except.ok ai) userMessage =
          { reply := ai.reply ++ str "\n\nI'm not entirely sure about that. Would you like me to connect you to a human support agent who can help you better?",
            confidence := ai.confidence, source := Source.ai_with_escalation,
            escalationOffered := true }) ∧
      ((processMessage (Except.ok ai) userMessage).source = Source.ai →
        ∃ f, checkFAQ userMessage = some f ∧ 0.8 < f.confidence ∧ 0.6 ≤ ai.confidence ∧
          ∀ phrase ∈ [str "i don't know", str "i'm not sure", str "i can't help",
              str "i'm unable to", str "i don't have information", str "i'm not certain"],
            ¬ phrase <:+: toLowerCase ai.reply) ∧
      ∀ f, checkFAQ userMessage = some f → ¬ f.confidence < 0.5 := by
  refine ⟨?_, ?_, ?_⟩
  · intro hnone
    rw [processMessage_ok, hnone, arbitrate_of_not_rule1 none ai (not_rule1_none ai),
      shouldOfferEscalation_none]
    rfl
  · intro hsrc
    rw [processMessage_ok] at hsrc
    cases hc : checkFAQ userMessage with
    | none =>
      rw [hc, arbitrate_of_not_rule1 none ai (not_rule1_none ai),
        shouldOfferEscalation_none] at hsrc
      simp at hsrc
    | some f =>
      obtain ⟨e, _, _, h8⟩ := checkFAQ_confidence userMessage f hc
      rw [hc] at hsrc
      by_cases h1 : Rule1 (some f) ai
      · obtain ⟨f', hf', h95, h7⟩ := h1
        cases hf'
        rw [arbitrate_of_rule1 f ai h95 h7] at hsrc
        simp at hsrc
      · rw [arbitrate_of_not_rule1 _ ai h1] at hsrc
        cases hesc : shouldOfferEscalation ai (some f) with
        | true =>
          rw [hesc] at hsrc
          simp at hsrc
        | false =>
          refine ⟨f, rfl, h8, ?_, ?_⟩
          · by_contra hlt
            have hlt' : ai.confidence < 0.6 := not_le.1 hlt
            unfold shouldOfferEscalation at hesc
            simp [hlt'] at hesc
          · intro phrase hp hin
            unfold shouldOfferEscalation at hesc
            have hany : uncertaintyPhrases.any
                (fun phrase => includes (toLowerCase ai.reply) phrase) = true := by
              rw [List.any_eq_true]
              exact ⟨phrase, hp, (includes_iff _ _).2 hin⟩
            simp [hany] at hesc
  · intro f hf h5
    obtain ⟨e, _, _, h8⟩ := checkFAQ_confidence userMessage f hf
    have : (0.8 : ℚ) < 0.5 := h8.trans h5
    norm_num at this

/-- Every score is a whole number of tenths, at most ten of them. -/
theorem calculateMatchScore_tenths (m : JSString) (e : FAQEntry) :
    ∃ n : ℕ, n ≤ 10 ∧ calculateMatchScore m e = (n : ℚ) / 10 := by
  have hacc : ∃ k : ℕ, calculateMatchScore.accumulated m e = (k : ℚ) / 10 := by
    rw [accumulated_eq]
    by_cases hq : includes m (toLowerCase e.question) = true
    · refine ⟨10 + 2 * e.keywords.countP (fun k => includes m (toLowerCase k))
        + (List.product (splitWhiteSpace m) e.keywords).countP
            (fun p => includes (toLowerCase p.2) p.1 || includes p.1 (toLowerCase p.2)), ?_⟩
      rw [if_pos hq]
      push_cast
      norm_num
      ring
    · refine ⟨2 * e.keywords.countP (fun k => includes m (toLowerCase k))
        + (List.product (splitWhiteSpace m) e.keywords).countP
            (fun p => includes (toLowerCase p.2) p.1 || includes p.1 (toLowerCase p.2)), ?_⟩
      rw [if_neg hq]
      push_cast
      norm_num
      ring
  obtain ⟨k, hk⟩ := hacc
  unfold calculateMatchScore
  rw [hk]
  by_cases h10 : k ≤ 10
  · refine ⟨k, h10, ?_⟩
    have : ((k : ℚ) / 10) ≤ 1 := by
      have : (k : ℚ) ≤ 10 := by exact_mod_cast h10
      linarith
    norm_num
    exact this
  · refine ⟨10, le_rfl, ?_⟩
    have : (1 : ℚ) ≤ (k : ℚ) / 10 := by
      have : (10 : ℚ) ≤ (k : ℚ) := by exact_mod_cast (not_le.1 h10).le
      linarith
    norm_num
    exact this

/-- C24: every score is an integer multiple of 0.1 between 0 and 1, so a
score above 0.95 is exactly 1: whenever `processMessage` returns source `faq`,
the returned confidence is exactly 1. -/
theorem C24_faq_confidence_is_one :
    (∀ (m : JSString) (e : FAQEntry),
      ∃ n : ℕ, n ≤ 10 ∧ calculateMatchScore m e = (n : ℚ) * 0.1) ∧
      (∀ (m : JSString) (e : FAQEntry),
        calculateMatchScore m e > 0.95 → calculateMatchScore m e = 1) ∧
      ∀ (backend : Except JSString AIResponse) (userMessage : JSString),
        (processMessage backend userMessage).source = Source.faq →
          (processMessage backend userMessage).confidence = 1 := by
  have hone : ∀ (m : JSString) (e : FAQEntry),
      calculateMatchScore m e > 0.95 → calculateMatchScore m e = 1 := by
    intro m e h
    obtain ⟨n, hn, hs⟩ := calculateMatchScore_tenths m e
    rw [hs] at h ⊢
    have h95 : (9.5 : ℚ) < (n : ℚ) := by
      norm_num at h ⊢
      linarith
    have h9 : 9 < n := by
      have : ((9 : ℕ) : ℚ) < (n : ℚ) := by
        push_cast
        linarith
      exact_mod_cast this
    have : n = 10 := by omega
    rw [this]
    norm_num
  refine ⟨?_, hone, ?_⟩
  · intro m e
    obtain ⟨n, hn, hs⟩ := calculateMatchScore_tenths m e
    refine ⟨n, hn, ?_⟩
    rw [hs]
    norm_num
    ring
  · intro backend userMessage hsrc
    cases backend with
    | error err =>
      have h : processMessage (Except.error err) userMessage = errorOutcome := rfl
      rw [h] at hsrc
      simp [errorOutcome] at hsrc
    | ok ai =>
      rw [processMessage_ok] at hsrc ⊢
      by_cases h1 : Rule1 (checkFAQ userMessage) ai
      · obtain ⟨f, hf, h95, h7⟩ := h1
        obtain ⟨e, _, hconf, _⟩ := checkFAQ_confidence userMessage f hf
        rw [hf, arbitrate_of_rule1 f ai h95 h7]
        show f.confidence = 1
        rw [hconf] at h95 ⊢
        exact hone _ e h95
      · rw [arbitrate_of_not_rule1 _ ai h1] at hsrc
        cases hesc : shouldOfferEscalation ai (checkFAQ userMessage) <;>
          rw [hesc] at hsrc <;> simp at hsrc

/-- C25: no entry shadows another entry's canonical question. For each of
the eleven entries, `checkFAQ` on the entry's question returns that entry
itself, with confidence 1, and every entry declared before it scores less
than 1 on that question. -/
theorem C25_no_shadowing :
    faqData.length = 11 ∧
      (∀ e ∈ faqData, checkFAQ e.question = some { e with confidence := 1 }) ∧
      ∀ i < 11, ∀ j < i, ∀ e ∈ faqData[i]?, ∀ earlier ∈ faqData[j]?,
        calculateMatchScore (trim (toLowerCase e.question)) earlier < 1 := by
  decide!

/-! ## Appending a word -/

theorem splitWhiteSpace_ne_nil (m : JSString) : splitWhiteSpace m ≠ [] := by
  obtain ⟨t, ts, _, h1, _⟩ := splitWhiteSpace_splitOnP m
  rw [h1]
  exact List.cons_ne_nil _ _

theorem splitWhiteSpace_of_no_ws (t : JSString) (ht : ∀ c ∈ t, isWhiteSpace c = false) :
    splitWhiteSpace t = [t] := by
  induction t with
  | nil => rfl
  | cons c cs ih =>
    have hc : isWhiteSpace c = false := ht c (by simp)
    have hcs : ∀ d ∈ cs, isWhiteSpace d = false := fun d hd => ht d (by simp [hd])
    rw [splitWhiteSpace_cons_of_not_ws c cs hc, ih hcs]
    rfl

theorem splitWhiteSpace_sep_word (sp : Char) (t : JSString) (hsp : isWhiteSpace sp = true)
    (ht : ∀ c ∈ t, isWhiteSpace c = false) :
    splitWhiteSpace (sp :: t) = [[], t] := by
  cases t with
  | nil =>
    rw [splitWhiteSpace_cons]
    simp only [hsp, if_true]
  | cons d rest =>
    have hd : isWhiteSpace d = false := ht d (by simp)
    rw [splitWhiteSpace_cons_ws_cons sp d rest hsp hd, splitWhiteSpace_of_no_ws _ ht]

/-- Splitting a string that ends in a character other than white space,
followed by one white space character and a word, yields the pieces of the
string and then the word. -/
theorem splitWhiteSpace_append_word (sp : Char) (t : JSString) (hsp : isWhiteSpace sp = true)
    (ht : ∀ c ∈ t, isWhiteSpace c = false) :
    ∀ m : JSString, m ≠ [] → (∀ c ∈ m.getLast?, isWhiteSpace c = false) →
      splitWhiteSpace (m ++ sp :: t) = splitWhiteSpace m ++ [t]
  | [], h, _ => absurd rfl h
  | [c], _, hl => by
    have hc : isWhiteSpace c = false := hl c (by simp)
    have h1 : [c] ++ sp :: t = c :: sp :: t := rfl
    rw [h1, splitWhiteSpace_cons_of_not_ws c _ hc, splitWhiteSpace_sep_word sp t hsp ht,
      splitWhiteSpace_cons_of_not_ws c [] hc]
    rfl
  | c :: d :: rest, _, hl => by
    have ih := splitWhiteSpace_append_word sp t hsp ht (d :: rest) (by simp)
      (by simpa [List.getLast?_cons_cons] using hl)
    have h1 : (c :: d :: rest) ++ sp :: t = c :: (d :: rest ++ sp :: t) := rfl
    have h2 : d :: rest ++ sp :: t = d :: (rest ++ sp :: t) := rfl
    by_cases hc : isWhiteSpace c = true
    · by_cases hd : isWhiteSpace d = true
      · rw [h1, h2, splitWhiteSpace_cons_cons_ws c d _ hc hd, ← h2, ih,
          splitWhiteSpace_cons_cons_ws c d rest hc hd]
      · have hd' : isWhiteSpace d = false := by simpa using hd
        rw [h1, h2, splitWhiteSpace_cons_ws_cons c d _ hc hd', ← h2, ih,
          splitWhiteSpace_cons_ws_cons c d rest hc hd']
        rfl
    · have hc' : isWhiteSpace c = false := by simpa using hc
      rw [h1, splitWhiteSpace_cons_of_not_ws c _ hc', ih,
        splitWhiteSpace_cons_of_not_ws c (d :: rest) hc']
      have hne := splitWhiteSpace_ne_nil (d :: rest)
      cases hs : splitWhiteSpace (d :: rest) with
      | nil => exact absurd hs hne
      | cons x xs => rfl

theorem product_append_left {α β : Type} (a b : List α) (ks : List β) :
    List.product (a ++ b) ks = List.product a ks ++ List.product b ks := by
  induction a with
  | nil => rfl
  | cons x xs ih =>
    have h1 : List.product (x :: (xs ++ b)) ks
        = ks.map (fun k => (x, k)) ++ List.product (xs ++ b) ks := List.product_cons x _ ks
    have h2 : List.product (x :: xs) ks
        = ks.map (fun k => (x, k)) ++ List.product xs ks := List.product_cons x _ ks
    rw [List.cons_append, h1, h2, ih, List.append_assoc]

/-- C26: appending a word never lowers a score. For every non-empty message
that does not end in white space, every word without white space and every
entry, the score of the message followed by a space and the word is at least
the score of the message. -/
theorem C26_appending_a_word (m t : JSString) (e : FAQEntry) (hne : m ≠ [])
    (hm : Trimmed m) (ht : ∀ c ∈ t, isWhiteSpace c = false) :
    calculateMatchScore m e ≤ calculateMatchScore (m ++ str " " ++ t) e := by
  have hsp : isWhiteSpace ' ' = true := by decide!
  have happ : m ++ str " " ++ t = m ++ ' ' :: t := by simp [str]
  have hsplit : splitWhiteSpace (m ++ ' ' :: t) = splitWhiteSpace m ++ [t] :=
    splitWhiteSpace_append_word ' ' t hsp ht m hne hm.2
  have hin : ∀ x : JSString, x <:+: m → x <:+: m ++ ' ' :: t :=
    fun x hx => hx.trans (List.infix_append' [] m (' ' :: t))
  unfold calculateMatchScore
  apply min_le_min le_rfl
  rw [accumulated_eq, accumulated_eq, happ, hsplit, product_append_left, List.countP_append]
  have hA : (if includes m (toLowerCase e.question) = true then (1 : ℚ) else 0)
      ≤ if includes (m ++ ' ' :: t) (toLowerCase e.question) = true then 1 else 0 := by
    by_cases h : includes m (toLowerCase e.question) = true
    · have h' : includes (m ++ ' ' :: t) (toLowerCase e.question) = true :=
        (includes_iff _ _).2 (hin _ ((includes_iff _ _).1 h))
      rw [if_pos h, if_pos h']
    · rw [if_neg h]; split <;> norm_num
  have hK : e.keywords.countP (fun k => includes m (toLowerCase k))
      ≤ e.keywords.countP (fun k => includes (m ++ ' ' :: t) (toLowerCase k)) := by
    apply List.countP_mono_left
    intro k _ h
    exact (includes_iff _ _).2 (hin _ ((includes_iff _ _).1 h))
  have hK' : ((e.keywords.countP (fun k => includes m (toLowerCase k)) : ℕ) : ℚ)
      ≤ ((e.keywords.countP (fun k => includes (m ++ ' ' :: t) (toLowerCase k)) : ℕ) : ℚ) := by
    exact_mod_cast hK
  push_cast
  have hP : (0 : ℚ) ≤ ((List.product [t] e.keywords).countP
      (fun p => includes (toLowerCase p.2) p.1 || includes p.1 (toLowerCase p.2)) : ℕ) :=
    Nat.cast_nonneg _
  linarith

/-- Witness of C26: "reset password" followed by the word "login" on the
password entry. -/
theorem C26_appending_a_word_witness :
    calculateMatchScore (str "reset password") passwordFaq = 0.6 ∧
      calculateMatchScore (str "reset password login") passwordFaq = 0.9 ∧
      calculateMatchScore (str "reset password") passwordFaq
        ≤ calculateMatchScore (str "reset password" ++ str " " ++ str "login") passwordFaq :=
  ⟨by decide!, by decide!,
    C26_appending_a_word (str "reset password") (str "login") passwordFaq (by decide!)
      (by decide!) (by decide!)⟩

/-! ## The confidence of the AI response -/

/-- The confidence without the final clamp: 0.8 minus the deductions that
apply. -/
theorem calculateConfidence_eq (candidate : Candidate) :
    calculateConfidence candidate =
      0.8 - (if candidate.blocked then 0.3 else 0) - (if candidate.short then 0.2 else 0)
        - (if candidate.hedged then 0.1 else 0) := by
  unfold calculateConfidence Candidate.blocked Candidate.short Candidate.hedged
  have hstr : str "" = [] := rfl
  simp only [hstr, orElse_nil]
  have h3 : (uncertaintyWords.any
        (fun word => includes (toLowerCase (candidate.text.getD [])) word) = true)
      ↔ ∃ word ∈ uncertaintyWords, word <:+: toLowerCase (candidate.text.getD []) := by
    simp only [List.any_eq_true, includes_iff]
  have h1 : ∀ ratings : List SafetyRating,
      (ratings.any (fun rating => rating.probability == str "HIGH"
          || rating.probability == str "MEDIUM") = true)
        ↔ ∃ rating ∈ ratings,
          rating.probability = str "MEDIUM" ∨ rating.probability = str "HIGH" := by
    intro ratings
    simp only [List.any_eq_true, Bool.or_eq_true, beq_iff_eq]
    constructor
    · rintro ⟨r, hr, h | h⟩
      · exact ⟨r, hr, Or.inr h⟩
      · exact ⟨r, hr, Or.inl h⟩
    · rintro ⟨r, hr, h | h⟩
      · exact ⟨r, hr, Or.inr h⟩
      · exact ⟨r, hr, Or.inl h⟩
  by_cases hb : ∃ rating ∈ candidate.safetyRatings.getD [],
      rating.probability = str "MEDIUM" ∨ rating.probability = str "HIGH"
  · have hm : (match candidate.safetyRatings with
        | some safetyRatings =>
          if safetyRatings.any (fun rating => rating.probability == str "HIGH"
              || rating.probability == str "MEDIUM") = true then (0.8 : ℚ) - 0.3 else 0.8
        | none => 0.8) = 0.8 - 0.3 := by
      cases hs : candidate.safetyRatings with
      | none => rw [hs] at hb; simp at hb
      | some ratings =>
        rw [hs] at hb
        simp only [Option.getD_some] at hb
        simp only [(h1 ratings).2 hb, if_true]
    rw [hm, if_pos hb]
    by_cases hh : ∃ word ∈ uncertaintyWords, word <:+: toLowerCase (candidate.text.getD [])
    · rw [if_pos (h3.2 hh), if_pos hh]
      split <;> norm_num
    · rw [if_neg (fun hc => hh (h3.1 hc)), if_neg hh]
      split <;> norm_num
  · have hm : (match candidate.safetyRatings with
        | some safetyRatings =>
          if safetyRatings.any (fun rating => rating.probability == str "HIGH"
              || rating.probability == str "MEDIUM") = true then (0.8 : ℚ) - 0.3 else 0.8
        | none => 0.8) = 0.8 := by
      cases hs : candidate.safetyRatings with
      | none => rfl
      | some ratings =>
        rw [hs] at hb
        simp only [Option.getD_some] at hb
        have : ¬ (ratings.any (fun rating => rating.probability == str "HIGH"
            || rating.probability == str "MEDIUM") = true) := fun hc => hb ((h1 ratings).1 hc)
        simp only [this, Bool.false_eq_true, if_false]
    rw [hm, if_neg hb]
    by_cases hh : ∃ word ∈ uncertaintyWords, word <:+: toLowerCase (candidate.text.getD [])
    · rw [if_pos (h3.2 hh), if_pos hh]
      split <;> norm_num
    · rw [if_neg (fun hc => hh (h3.1 hc)), if_neg hh]
      split <;> norm_num

theorem calculateConfidence_mem (candidate : Candidate) :
    calculateConfidence candidate ∈ ([0.2, 0.3, 0.4, 0.5, 0.6, 0.7, 0.8] : List ℚ) := by
  rw [calculateConfidence_eq]
  split <;> split <;> split <;> norm_num

theorem callGeminiAPI_of_candidate (svc : ChatService) (fetch : Request → FetchResult)
    (userMessage : JSString) (session : Session)
    (hkey : svc.geminiApiKey ≠ [] ∧ svc.geminiApiKey ≠ str "your_gemini_api_key_here")
    (status : Nat) (text : JSString) (candidate : Candidate) (rest : List Candidate)
    (hf : fetch (svc.request userMessage session)
      = FetchResult.response true status text (some { candidates := some (candidate :: rest) })) :
    (svc.callGeminiAPI fetch userMessage session).result =
      Except.ok
        { reply := trim (orElse candidate.text
            (str "I apologize, but I couldn't generate a response.")),
          confidence := calculateConfidence candidate } := by
  rw [(callGeminiAPI_of_key svc fetch userMessage session hkey).2, hf]
  rfl

/-- A call that returns a response, outside demo mode, took it from the first
candidate of an ok answer. -/
theorem callGeminiAPI_ok (svc : ChatService) (fetch : Request → FetchResult)
    (userMessage : JSString) (session : Session)
    (hkey : svc.geminiApiKey ≠ [] ∧ svc.geminiApiKey ≠ str "your_gemini_api_key_here")
    (ai : AIResponse) (h : (svc.callGeminiAPI fetch userMessage session).result = Except.ok ai) :
    ∃ status text candidate rest,
      fetch (svc.request userMessage session)
        = FetchResult.response true status text
            (some { candidates := some (candidate :: rest) }) ∧
      ai = { reply := trim (orElse candidate.text
              (str "I apologize, but I couldn't generate a response.")),
             confidence := calculateConfidence candidate } := by
  rw [(callGeminiAPI_of_key svc fetch userMessage session hkey).2] at h
  cases hf : fetch (svc.request userMessage session) with
  | rejected error => rw [hf] at h; cases h
  | response ok status text json =>
    rw [hf] at h
    cases ok with
    | false => cases h
    | true =>
      cases json with
      | none => cases h
      | some data =>
        obtain ⟨candidates⟩ := data
        cases candidates with
        | none => cases h
        | some cs =>
          cases cs with
          | nil => cases h
          | cons candidate rest =>
            refine ⟨status, text, candidate, rest, rfl, ?_⟩
            have h' : (Except.ok
                { reply := trim (orElse candidate.text
                    (str "I apologize, but I couldn't generate a response.")),
                  confidence := calculateConfidence candidate } : Except JSString AIResponse)
                = Except.ok ai := h
            exact (Except.ok.inj h').symm

theorem callGeminiAPI_demo (svc : ChatService) (fetch : Request → FetchResult)
    (userMessage : JSString) (session : Session)
    (hkey : ¬ (svc.geminiApiKey ≠ [] ∧ svc.geminiApiKey ≠ str "your_gemini_api_key_here")) :
    (svc.callGeminiAPI fetch userMessage session).requests = [] ∧
      ∃ reply, (svc.callGeminiAPI fetch userMessage session).result
        = Except.ok { reply := reply, confidence := 0.5 } := by
  have hc : (svc.geminiApiKey.isEmpty || svc.geminiApiKey == str "your_gemini_api_key_here")
      = true := by
    by_cases h1 : svc.geminiApiKey = []
    · simp [h1]
    · have h2 : svc.geminiApiKey = str "your_gemini_api_key_here" := by
        by_contra h2
        exact hkey ⟨h1, h2⟩
      simp [h2]
  unfold ChatService.callGeminiAPI
  rw [if_pos hc]
  exact ⟨rfl, _, rfl⟩

/-- C27: `calculateConfidence` returns one of 0.2, 0.3, 0.4, 0.5, 0.6, 0.7,
0.8 for every candidate, the final clamp never changes the value, and a call
of `callGeminiAPI` that returns a response returns it with a confidence from
0.2 to 0.8, never 0 and never above 0.8. -/
theorem C27_confidence_range :
    (∀ candidate : Candidate,
      calculateConfidence candidate ∈ ([0.2, 0.3, 0.4, 0.5, 0.6, 0.7, 0.8] : List ℚ) ∧
      calculateConfidence candidate =
        0.8 - (if candidate.blocked then 0.3 else 0) - (if candidate.short then 0.2 else 0)
          - (if candidate.hedged then 0.1 else 0)) ∧
      ∀ (svc : ChatService) (fetch : Request → FetchResult) (userMessage : JSString)
        (session : Session) (ai : AIResponse),
        (svc.callGeminiAPI fetch userMessage session).result = Except.ok ai →
          0.2 ≤ ai.confidence ∧ ai.confidence ≤ 0.8 ∧ ai.confidence ≠ 0 := by
  have hrange : ∀ q : ℚ, q ∈ ([0.2, 0.3, 0.4, 0.5, 0.6, 0.7, 0.8] : List ℚ) →
      0.2 ≤ q ∧ q ≤ 0.8 ∧ q ≠ 0 := by
    intro q hq
    simp only [List.mem_cons, List.mem_singleton, List.not_mem_nil, or_false] at hq
    rcases hq with h | h | h | h | h | h | h <;> rw [h] <;> norm_num
  refine ⟨fun candidate => ⟨calculateConfidence_mem candidate, calculateConfidence_eq candidate⟩,
    ?_⟩
  intro svc fetch userMessage session ai h
  by_cases hkey : svc.geminiApiKey ≠ [] ∧ svc.geminiApiKey ≠ str "your_gemini_api_key_here"
  · obtain ⟨status, text, candidate, rest, _, hai⟩ :=
      callGeminiAPI_ok svc fetch userMessage session hkey ai h
    rw [hai]
    exact hrange _ (calculateConfidence_mem candidate)
  · obtain ⟨_, reply, hr⟩ := callGeminiAPI_demo svc fetch userMessage session hkey
    rw [hr] at h
    have hai : ai = { reply := reply, confidence := 0.5 } := (Except.ok.inj h).symm
    rw [hai]
    norm_num

/-- C28: rule 1 fires only when the AI response was penalised for safety or
for shortness. When `processMessage` calls the backend and returns source
`faq`, the first candidate of the answer carried a safety rating of
probability `MEDIUM` or `HIGH` or had raw text shorter than 20 code units; a
candidate with neither has confidence at least 0.7 (exactly 0.7 with a hedging
word), which rule 1 does not accept. -/
theorem C28_faq_only_when_penalised (svc : ChatService) (fetch : Request → FetchResult)
    (userMessage : JSString) (session : Session)
    (hkey : svc.geminiApiKey ≠ [] ∧ svc.geminiApiKey ≠ str "your_gemini_api_key_here")
    (hsrc : (svc.processMessage fetch userMessage session).source = Source.faq) :
    (∃ status text candidate rest,
        fetch (svc.request userMessage session)
          = FetchResult.response true status text
              (some { candidates := some (candidate :: rest) }) ∧
        (candidate.blocked ∨ candidate.short)) ∧
      ∀ candidate : Candidate, ¬ candidate.blocked → ¬ candidate.short →
        0.7 ≤ calculateConfidence candidate ∧
        (candidate.hedged → calculateConfidence candidate = 0.7) ∧
        ∀ (f : FAQEntry) (reply : JSString),
          ¬ Rule1 (some f) { reply := reply, confidence := calculateConfidence candidate } := by
  have hplain : ∀ candidate : Candidate, ¬ candidate.blocked → ¬ candidate.short →
      0.7 ≤ calculateConfidence candidate ∧
      (candidate.hedged → calculateConfidence candidate = 0.7) := by
    intro candidate hb hs
    rw [calculateConfidence_eq, if_neg hb, if_neg hs]
    constructor
    · split <;> norm_num
    · intro hh
      rw [if_pos hh]
      norm_num
  constructor
  · rw [ChatService.processMessage_eq] at hsrc
    cases hres : (svc.callGeminiAPI fetch userMessage session).result with
    | error err =>
      rw [hres] at hsrc
      have h : processMessage (Except.error err) userMessage = errorOutcome := rfl
      rw [h] at hsrc
      simp [errorOutcome] at hsrc
    | ok ai =>
      rw [hres, processMessage_ok] at hsrc
      obtain ⟨status, text, candidate, rest, hf, hai⟩ :=
        callGeminiAPI_ok svc fetch userMessage session hkey ai hres
      refine ⟨status, text, candidate, rest, hf, ?_⟩
      by_contra hnot
      have hb : ¬ candidate.blocked := fun h => hnot (Or.inl h)
      have hs : ¬ candidate.short := fun h => hnot (Or.inr h)
      have h7 : 0.7 ≤ ai.confidence := by
        rw [hai]
        exact (hplain candidate hb hs).1
      have h1 : ¬ Rule1 (checkFAQ userMessage) ai := by
        rintro ⟨f, _, _, hlt⟩
        exact absurd hlt (not_lt.2 h7)
      rw [arbitrate_of_not_rule1 _ ai h1] at hsrc
      cases hesc : shouldOfferEscalation ai (checkFAQ userMessage) <;>
        rw [hesc] at hsrc <;> simp at hsrc
  · intro candidate hb hs
    refine ⟨(hplain candidate hb hs).1, (hplain candidate hb hs).2, ?_⟩
    rintro f reply ⟨f', _, _, hlt⟩
    exact absurd hlt (not_lt.2 (hplain candidate hb hs).1)

/-- Witness of C28: the password question against a backend whose only
candidate has the short text "Sure." and no safety rating: the AI confidence
is 0.6, the FAQ score 1, and the FAQ answer is served. -/
theorem C28_faq_only_when_penalised_witness :
    (ChatService.new none none).processMessage (fun _ => answerWith (textCandidate (str "Sure.")))
        (str "How do I reset my password?") emptySession
      = { reply := passwordFaq.answer, confidence := 1, source := Source.faq,
          escalationOffered := false } ∧
      calculateConfidence (textCandidate (str "Sure.")) = 0.6 ∧
      ∃ status text candidate rest,
        answerWith (textCandidate (str "Sure."))
          = FetchResult.response true status text
              (some { candidates := some (candidate :: rest) }) ∧
        (candidate.blocked ∨ candidate.short) :=
  ⟨by decide!, by decide!,
    (C28_faq_only_when_penalised (ChatService.new none none)
      (fun _ => answerWith (textCandidate (str "Sure.")))
      (str "How do I reset my password?") emptySession (by decide!) (by decide!)).1⟩

/-- The double confidence is a function of the three tests on the
candidate. -/
theorem calculateConfidenceDouble_eq (candidate : Candidate) :
    calculateConfidenceDouble candidate =
      doubleConfidence (decide candidate.blocked) (decide candidate.short)
        (decide candidate.hedged) := by
  unfold calculateConfidenceDouble doubleConfidence Candidate.blocked Candidate.short
    Candidate.hedged
  have hstr : str "" = [] := rfl
  simp only [hstr, orElse_nil]
  have h3 : uncertaintyWords.any
        (fun word => includes (toLowerCase (candidate.text.getD [])) word)
      = decide (∃ word ∈ uncertaintyWords, word <:+: toLowerCase (candidate.text.getD [])) := by
    rw [Bool.eq_iff_iff]
    simp only [List.any_eq_true, includes_iff, decide_eq_true_eq]
  have h1 : ∀ ratings : List SafetyRating,
      ratings.any (fun rating => rating.probability == str "HIGH"
          || rating.probability == str "MEDIUM")
        = decide (∃ rating ∈ ratings,
          rating.probability = str "MEDIUM" ∨ rating.probability = str "HIGH") := by
    intro ratings
    rw [Bool.eq_iff_iff]
    simp only [List.any_eq_true, Bool.or_eq_true, beq_iff_eq, decide_eq_true_eq]
    constructor
    · rintro ⟨r, hr, h | h⟩
      · exact ⟨r, hr, Or.inr h⟩
      · exact ⟨r, hr, Or.inl h⟩
    · rintro ⟨r, hr, h | h⟩
      · exact ⟨r, hr, Or.inr h⟩
      · exact ⟨r, hr, Or.inl h⟩
  have hm : (match candidate.safetyRatings with
      | some safetyRatings =>
        if safetyRatings.any (fun rating => rating.probability == str "HIGH"
            || rating.probability == str "MEDIUM") = true
        then roundDouble (roundDouble 0.8 - roundDouble 0.3) else roundDouble 0.8
      | none => roundDouble 0.8)
      = if decide (∃ rating ∈ candidate.safetyRatings.getD [],
          rating.probability = str "MEDIUM" ∨ rating.probability = str "HIGH") = true
        then roundDouble (roundDouble 0.8 - roundDouble 0.3) else roundDouble 0.8 := by
    cases hs : candidate.safetyRatings with
    | none => simp
    | some ratings => simp only [Option.getD_some, h1 ratings]
  rw [hm, h3]
  simp only [decide_eq_true_eq]

/-- The values of the double model on the subtractions of the service:
0.8 - 0.2 is 0.6000000000000001, one step above the double 0.6, and
0.8 - 0.3 - 0.2 - 0.1 is 0.19999999999999998, one step below the double 0.2. -/
theorem roundDouble_examples :
    roundDouble 0.8 = 3602879701896397 / 4503599627370496 ∧
      roundDouble 0.6 = 5404319552844595 / 9007199254740992 ∧
      roundDouble (roundDouble 0.8 - roundDouble 0.2) = 5404319552844596 / 9007199254740992 ∧
      roundDouble (roundDouble 0.8 - roundDouble 0.3) = 1 / 2 ∧
      roundDouble (roundDouble (roundDouble (roundDouble 0.8 - roundDouble 0.3)
          - roundDouble 0.2) - roundDouble 0.1) = 7205759403792793 / 36028797018963968 ∧
      roundDouble 0.2 = 7205759403792794 / 36028797018963968 := by
  decide!

/-- C29 fails as stated: for a candidate without text and without safety
ratings only the short-reply deduction applies, and in the double arithmetic
of the source 0.8 - 0.2 is 0.6000000000000001, which is above 0.6. -/
theorem C29_fallback_confidence_counterexample :
    ({ content := none, safetyRatings := none } : Candidate).text = none ∧
      calculateConfidenceDouble { content := none, safetyRatings := none }
        = 5404319552844596 / 9007199254740992 ∧
      roundDouble 0.6 = 5404319552844595 / 9007199254740992 ∧
      ¬ calculateConfidenceDouble { content := none, safetyRatings := none }
        ≤ roundDouble 0.6 := by
  decide!

/-- C29, amended: the short-reply penalty is measured on the raw candidate
text. For an ok answer whose first candidate has no text (or an empty one),
`callGeminiAPI` returns the fixed fallback reply, which has more than 20 code
units, with the confidence computed for the candidate; the short-reply
deduction applies to it, and the confidence is below 0.7, in double arithmetic
as in exact arithmetic. For a candidate with a text, the reply is the text
trimmed, while the length test of the confidence uses the text as it came. -/
theorem C29_penalty_on_raw_text (svc : ChatService) (fetch : Request → FetchResult)
    (userMessage : JSString) (session : Session)
    (hkey : svc.geminiApiKey ≠ [] ∧ svc.geminiApiKey ≠ str "your_gemini_api_key_here")
    (status : Nat) (text : JSString) (candidate : Candidate) (rest : List Candidate)
    (hf : fetch (svc.request userMessage session)
      = FetchResult.response true status text (some { candidates := some (candidate :: rest) })) :
    ((candidate.text = none ∨ candidate.text = some []) →
        (svc.callGeminiAPI fetch userMessage session).result =
          Except.ok
            { reply := str "I apologize, but I couldn't generate a response.",
              confidence := calculateConfidence candidate } ∧
        20 < length (str "I apologize, but I couldn't generate a response.") ∧
        candidate.short ∧
        calculateConfidenceDouble candidate
          = doubleConfidence (decide candidate.blocked) true false ∧
        calculateConfidenceDouble candidate < roundDouble 0.7 ∧
        calculateConfidence candidate < 0.7) ∧
      ∀ t, candidate.text = some t → t ≠ [] →
        (svc.callGeminiAPI fetch userMessage session).result =
          Except.ok { reply := trim t, confidence := calculateConfidence candidate } ∧
        (candidate.short ↔ length t < 20) ∧
        calculateConfidenceDouble candidate =
          doubleConfidence (decide candidate.blocked) (decide (length t < 20))
            (decide (∃ word ∈ uncertaintyWords, word <:+: toLowerCase t)) := by
  have hres := callGeminiAPI_of_candidate svc fetch userMessage session hkey status text
    candidate rest hf
  constructor
  · intro hnone
    have hor : orElse candidate.text (str "I apologize, but I couldn't generate a response.")
        = str "I apologize, but I couldn't generate a response." := by
      rcases hnone with h | h <;> rw [h] <;> rfl
    have htrim : trim (str "I apologize, but I couldn't generate a response.")
        = str "I apologize, but I couldn't generate a response." := by decide!
    have hg : candidate.text.getD [] = [] := by
      rcases hnone with h | h <;> rw [h] <;> rfl
    have hshort : candidate.short := by
      unfold Candidate.short
      rw [hg]
      decide
    have hhedged : ¬ candidate.hedged := by
      unfold Candidate.hedged
      rw [hg]
      decide!
    have hd : calculateConfidenceDouble candidate
        = doubleConfidence (decide candidate.blocked) true false := by
      rw [calculateConfidenceDouble_eq, decide_eq_true hshort, decide_eq_false hhedged]
    refine ⟨by rw [hres, hor, htrim], by decide!, hshort, hd, ?_, ?_⟩
    · rw [hd]
      cases decide candidate.blocked <;> decide!
    · rw [calculateConfidence_eq, if_pos hshort, if_neg hhedged]
      split <;> norm_num
  · intro t ht hne
    have hor : orElse candidate.text (str "I apologize, but I couldn't generate a response.")
        = t := by
      rw [ht]
      cases t with
      | nil => exact absurd rfl hne
      | cons c cs => rfl
    have hg : candidate.text.getD [] = t := by rw [ht]; rfl
    refine ⟨by rw [hres, hor], ?_, ?_⟩
    · unfold Candidate.short
      rw [hg]
    · rw [calculateConfidenceDouble_eq]
      unfold Candidate.short Candidate.hedged
      simp only [hg]

/-- Witness of C29: a text of 13 characters followed by ten spaces. The reply
is the 13 characters, and no short-reply penalty is taken: the confidence is
0.8. -/
theorem C29_penalty_on_raw_text_witness :
    length (str "Yes, you can.          ") = 23 ∧
      length (trim (str "Yes, you can.          ")) = 13 ∧
      calculateConfidence (textCandidate (str "Yes, you can.          ")) = 0.8 ∧
      calculateConfidenceDouble (textCandidate (str "Yes, you can.          "))
        = roundDouble 0.8 ∧
      ((ChatService.new none none).callGeminiAPI
          (fun _ => answerWith (textCandidate (str "Yes, you can.          ")))
          (str "Can I change my email?") emptySession).result =
        Except.ok
          { reply := trim (str "Yes, you can.          "),
            confidence := calculateConfidence (textCandidate (str "Yes, you can.          ")) } :=
  ⟨by decide!, by decide!, by decide!, by decide!,
    ((C29_penalty_on_raw_text (ChatService.new none none)
      (fun _ => answerWith (textCandidate (str "Yes, you can.          ")))
      (str "Can I change my email?") emptySession (by decide!) 200 (str "")
      (textCandidate (str "Yes, you can.          ")) [] rfl).2
      (str "Yes, you can.          ") rfl (by decide!)).1⟩

/-! ## History from the request to the prompt -/

theorem chatHandler_valid (chatService : ChatService) (fetch : Request → FetchResult)
    (freshId : JSString) (body : ChatBody) (s : JSString)
    (hm : body.message = JSValue.string s) (hs : ∃ c ∈ s, isWhiteSpace c = false) :
    (chatHandler chatService fetch freshId body).calls
      = [(s, { conversationId := body.conversationId, messages := none })] := by
  obtain ⟨c, hc, hcw⟩ := hs
  have hne : s ≠ [] := by
    intro h0
    rw [h0] at hc
    cases hc
  have htrim : length (trim s) ≠ 0 := by
    intro h0
    have hall := (trim_eq_nil_iff s).1 ((length_eq_zero_iff _).1 h0)
    rw [hall c hc] at hcw
    cases hcw
  have hcond : ¬ ((!(JSValue.string s).truthy || length (trim s) == 0) = true) := by
    simp [JSValue.truthy, List.isEmpty_iff, hne, htrim]
  rw [chatHandler_string chatService fetch freshId body s hm, if_neg hcond]

/-- C22, evaluated on the code: the handler reads only `message` and
`conversationId` of the body and calls `processMessage` with the session
`{ conversationId }`, whatever `session` the body carries; the prompt is then
the system prompt followed by `User: ` and the message, with no history. On a
body with two earlier turns the call has no messages, and the prompt sent
differs from the prompt that the body's session would give. -/
theorem C22_history_dropped_by_handler :
    (∀ (chatService : ChatService) (fetch : Request → FetchResult) (freshId : JSString)
        (body : ChatBody) (s : JSString),
        body.message = JSValue.string s → (∃ c ∈ s, isWhiteSpace c = false) →
          (chatHandler chatService fetch freshId body).calls
            = [(s, { conversationId := body.conversationId, messages := none })] ∧
          (chatService.request s
              { conversationId := body.conversationId, messages := none }).text
            = systemPrompt ++ str "\n\nUser: " ++ s) ∧
      (chatHandler (ChatService.new none none)
          (fun _ => answerWith (textCandidate (str "Then choose a new password.")))
          (str "conv_2") historyBody).calls
        = [(str "And after that?",
            { conversationId := JSValue.string (str "conv_1"), messages := none })] ∧
      ((ChatService.new none none).callGeminiAPI
          (fun _ => answerWith (textCandidate (str "Then choose a new password.")))
          (str "And after that?")
          { conversationId := JSValue.string (str "conv_1"), messages := none }).requests.map
            Request.text
        = [systemPrompt ++ str "\n\nUser: And after that?"] ∧
      historyBody.session.map (userPrompt (str "And after that?"))
        = some (systemPrompt
            ++ str "\n\nPrevious conversation:\nuser: How do I reset my password?\nassistant: Open the login page first.\n\nCurrent user message: And after that?") := by
  refine ⟨?_, by decide!, by decide!, by decide!⟩
  intro chatService fetch freshId body s hm hs
  exact ⟨chatHandler_valid chatService fetch freshId body s hm hs, rfl⟩


/-! ## The empty message at the chat endpoint -/

theorem isWhiteSpace_of_toLower (c : Char) (h : isWhiteSpace c.toLower = true) :
    isWhiteSpace c = true := by
  by_cases hr : c.toNat ≥ 65 ∧ c.toNat ≤ 90
  · exfalso
    have hl : c.toLower = Char.ofNat (c.toNat + 32) := by
      unfold Char.toLower
      simp only [hr, and_self, if_true]
    rw [hl] at h
    obtain ⟨h1, h2⟩ := hr
    generalize c.toNat = n at h h1 h2
    interval_cases n <;> exact absurd h (by decide!)
  · have hl : c.toLower = c := by
      unfold Char.toLower
      simp only [hr, if_false]
    rw [hl] at h
    exact h

/-- A message with a character that is not white space normalises to a
non-empty string. -/
theorem normalized_ne_nil (s : JSString) (hs : ∃ c ∈ s, isWhiteSpace c = false) :
    trim (toLowerCase s) ≠ [] := by
  obtain ⟨c, hc, hcw⟩ := hs
  intro h0
  have hall := (trim_eq_nil_iff (toLowerCase s)).1 h0
  have hmem : c.toLower ∈ toLowerCase s := List.mem_map_of_mem _ hc
  have := isWhiteSpace_of_toLower c (hall _ hmem)
  rw [this] at hcw
  cases hcw

/-- C9, amended: the empty message never reaches the FAQ matcher through the
chat endpoint. For a body whose message is the empty string or consists of
white space only, which normalises to the empty string, the handler answers
400 and does not call `processMessage`; and every message that the handler
does pass to `processMessage` normalises to a non-empty string. -/
theorem C9_empty_message_rejected (chatService : ChatService)
    (fetch : Request → FetchResult) (freshId : JSString) (body : ChatBody) :
    (∀ s, body.message = JSValue.string s → (∀ c ∈ s, isWhiteSpace c = true) →
        trim (toLowerCase s) = [] ∧
        (chatHandler chatService fetch freshId body).calls = [] ∧
        (chatHandler chatService fetch freshId body).response
          = ChatResponse.badRequest
              (str "Message is required and must be a non-empty string")) ∧
      ∀ call ∈ (chatHandler chatService fetch freshId body).calls,
        trim (toLowerCase call.1) ≠ [] := by
  have hrej : ∀ s, body.message = JSValue.string s → (∀ c ∈ s, isWhiteSpace c = true) →
      (chatHandler chatService fetch freshId body).calls = [] ∧
      (chatHandler chatService fetch freshId body).response
        = ChatResponse.badRequest
            (str "Message is required and must be a non-empty string") := by
    intro s hm hs
    have hcond : (!(JSValue.string s).truthy || length (trim s) == 0) = true := by
      have : length (trim s) = 0 := (length_eq_zero_iff _).2 ((trim_eq_nil_iff s).2 hs)
      simp [this]
    rw [chatHandler_string chatService fetch freshId body s hm, if_pos hcond]
    exact ⟨rfl, rfl⟩
  constructor
  · intro s hm hs
    refine ⟨?_, hrej s hm hs⟩
    rw [toLowerCase_of_all_ws s hs]
    exact trim_of_all_ws s hs
  · intro call hcall
    cases hm : body.message with
    | string s =>
      by_cases hs : ∀ c ∈ s, isWhiteSpace c = true
      · rw [(hrej s hm hs).1] at hcall
        cases hcall
      · have hex : ∃ c ∈ s, isWhiteSpace c = false := by
          by_contra hne
          apply hs
          intro c hc
          by_contra hcw
          exact hne ⟨c, hc, by simpa using hcw⟩
        rw [chatHandler_valid chatService fetch freshId body s hm hex] at hcall
        have hc1 : call = (s, { conversationId := body.conversationId, messages := none }) :=
          List.mem_singleton.1 hcall
        rw [hc1]
        exact normalized_ne_nil s hex
    | undefined => unfold chatHandler at hcall; rw [hm] at hcall; cases hcall
    | null => unfold chatHandler at hcall; rw [hm] at hcall; cases hcall
    | boolean b => unfold chatHandler at hcall; rw [hm] at hcall; cases hcall
    | number n => unfold chatHandler at hcall; rw [hm] at hcall; cases hcall
    | nan => unfold chatHandler at hcall; rw [hm] at hcall; cases hcall
    | object => unfold chatHandler at hcall; rw [hm] at hcall; cases hcall

/-- Witness of C9: a body whose message is three white space characters is
answered with 400 and no call of `processMessage`. -/
theorem C9_empty_message_rejected_witness :
    trim (toLowerCase (str " \t\n")) = [] ∧
      (chatHandler (ChatService.new none none) (fun _ => answerWith (textCandidate (str "Hello.")))
          (str "conv_3")
          { message := JSValue.string (str " \t\n"), conversationId := JSValue.undefined,
            session := none }).calls = [] ∧
      (chatHandler (ChatService.new none none) (fun _ => answerWith (textCandidate (str "Hello.")))
          (str "conv_3")
          { message := JSValue.string (str " \t\n"), conversationId := JSValue.undefined,
            session := none }).response
        = ChatResponse.badRequest (str "Message is required and must be a non-empty string") :=
  (C9_empty_message_rejected (ChatService.new none none)
    (fun _ => answerWith (textCandidate (str "Hello."))) (str "conv_3")
    { message := JSValue.string (str " \t\n"), conversationId := JSValue.undefined,
      session := none }).1 (str " \t\n") rfl (by decide!)

end Sathi
